import Mathlib

/-!
Verification of the cloud-run-events reconcilers.

Shallow embedding of the two reconcilers in the repository:
 - the GCS source reconciler (`src/pkg/reconciler/gcs/gcs.go`), modelled in
   namespace `Gcs`;
 - the PubSubSource reconciler (`src/unnamed/part_000`), modelled in
   namespace `PubSubSrc`.

External calls (pubsub client, cloud storage client, k8s API server and
listers, metadata server, sink resolution) are modelled as oracles supplied
in an environment record: each oracle field holds the answer the external
system gives during the reconcile pass under study.  Every function also
returns the list of external calls and finalizer mutations it performed, in
order, so that call-ordering properties can be stated.
-/

/-- Provider (grpc / cloud client) errors.  `grpcStatus c m` is an error from
which `gstatus.FromError` can extract a status with code `c`; `pother` is any
other error.  `codes.NotFound` is 5. -/
inductive PErr
  | grpcStatus (code : Nat) (msg : String)
  | pother (msg : String)
deriving DecidableEq, Repr

/-- grpc code `codes.NotFound`. -/
def notFoundCode : Nat := 5

/-- Kubernetes API errors, as classified by `apierrs.IsNotFound`. -/
inductive KErr
  | notFound
  | kother (msg : String)
deriving DecidableEq, Repr

/-- Error returned by a reconcile pass: a sink-resolution failure, a provider
error, a k8s API error or a validation error built with `errors.New`. -/
inductive RErr
  | sinkErr (msg : String)
  | provider (e : PErr)
  | k8s (e : KErr)
  | validation (msg : String)
deriving DecidableEq, Repr

def PErr.msg : PErr → String
  | .grpcStatus _ m => m
  | .pother m => m

def KErr.msg : KErr → String
  | .notFound => "not found"
  | .kother m => m

/-- Turn a computation result into the `error` value the Go function returns
(`none` is Go's `nil`). -/
def exceptErr {ε α : Type} : Except ε α → Option ε
  | .ok _ => none
  | .error e => some e

/-- Modelled from the spec (§4.1): the status of one condition.  The knative
condition helpers (`MarkSink`, `MarkPubSubTopicReady`, ...) live outside
`src/`. -/
inductive CondStatus
  | condTrue
  | condFalse
  | condUnknown
deriving DecidableEq, Repr

/-- Modelled from the spec (§4.1): a condition value carries a status and a
reason string. -/
structure Cond where
  status : CondStatus
  reason : String
deriving DecidableEq, Repr

/-- Modelled from the spec (§4.1): conditions are an ordered mapping from
condition type to latest value, overwritten by type. -/
abbrev Conditions := List (String × Cond)

/-- Modelled from the spec (§4.1): overwrite the condition of type `ty`, or
append it when absent. -/
def setCond : Conditions → String → Cond → Conditions
  | [], ty, c => [(ty, c)]
  | p :: t, ty, c => if p.1 = ty then (ty, c) :: t else p :: setCond t ty c

/-- Look up the condition of type `ty` (first binding wins). -/
def lookupCond : Conditions → String → Option Cond
  | [], _ => none
  | p :: t, ty => if p.1 = ty then some p.2 else lookupCond t ty

/-- Modelled from the spec (§4.1): `InitializeConditions` sets a condition of
type `ty` to Unknown when it is absent. -/
def initCond (cs : Conditions) (ty : String) : Conditions :=
  if cs.any (fun p => p.1 == ty) then cs else cs ++ [(ty, ⟨.condUnknown, ""⟩)]

/-- Modelled from the spec (§4.1): initialize all of a kind's condition types
to Unknown where absent. -/
def initConds (cs : Conditions) (tys : List String) : Conditions :=
  tys.foldl initCond cs

/-- Does some condition have status False?  Used to state that a reconcile
pass recorded (or failed to record) a failure condition. -/
def hasFalseCond (cs : Conditions) : Bool :=
  cs.any (fun p => p.2.status == CondStatus.condFalse)

/-- Association-list model of a Go `map[string]string` update `m[k] = v`
applied to a fresh copy of `m`: every binding of `k` is replaced, and `k` is
appended when absent. -/
def mapSet : List (String × String) → String → String → List (String × String)
  | [], k, v => [(k, v)]
  | p :: t, k, v => if p.1 = k then (k, v) :: t else p :: mapSet t k v

/-- Association-list lookup (first binding wins), the read semantics of a Go
map built without duplicate keys. -/
def lookupAttr : List (String × String) → String → Option String
  | [], _ => none
  | p :: t, k => if p.1 = k then some p.2 else lookupAttr t k

/-- Byte-wise string comparison as a computable Bool, the order in which
`sets.String.List()` returns its elements. -/
def strLe (a b : String) : Bool := decide (a.data ≤ b.data)

/-- Insert a string into a sorted duplicate-free list, keeping it sorted and
duplicate-free. -/
def setInsert (x : String) : List String → List String
  | [] => [x]
  | y :: t => if x = y then y :: t
      else if strLe x y then x :: y :: t
      else y :: setInsert x t

/-- The `k8s.io/apimachinery` string-set view of a slice:
`sets.NewString(l...)` keeps one copy of every element and `List()` returns
them sorted — modelled as the canonical sorted duplicate-free list of the
elements. -/
def setOfList : List String → List String
  | [] => []
  | x :: t => setInsert x (setOfList t)

/-- The invariant of a `sets.String` listing: sorted with no duplicates. -/
abbrev SortedStrSet (l : List String) : Prop :=
  l.Pairwise (fun a b => strLe a b = true ∧ a ≠ b)

/-- Model of `sets.NewString(l...); Insert name; List()` — the body shared by both
reconcilers' `addFinalizer`. -/
def insertFinalizer (name : String) (l : List String) : List String :=
  setInsert name (setOfList l)

/-- Model of `sets.NewString(l...); Delete name; List()` — the body shared by both
reconcilers' `removeFinalizer`. -/
def eraseFinalizer (name : String) (l : List String) : List String :=
  (setOfList l).filter (fun x => !(x == name))

/-- An external call or in-memory finalizer mutation performed during a
reconcile pass, in order. -/
inductive Ev
  | callGetSinkURI
  | callTopicExists (name : String)
  | callCreateTopic (name : String)
  | callDeleteTopic (name : String)
  | callGetPullSubscription
  | callCreatePullSubscription
  | callListNotifications
  | callAddNotification (topicID : String) (attrs : List (String × String))
  | callDeleteNotification (id : String)
  | callSubExists (name : String)
  | callCreateSub (name : String)
  | callDeleteSub (name : String)
  | callGetRA
  | callCreateRA
  | evAddFinalizer
  | evRemoveFinalizer
deriving DecidableEq, Repr

/-- Is this event the creation of an external (or owned) resource? -/
def Ev.isExternalCreate : Ev → Bool
  | .callCreateTopic _ => true
  | .callCreatePullSubscription => true
  | .callAddNotification _ _ => true
  | .callCreateSub _ => true
  | .callCreateRA => true
  | _ => false

def Ev.isCreateTopic : Ev → Bool
  | .callCreateTopic _ => true
  | _ => false

def Ev.isCreateSub : Ev → Bool
  | .callCreateSub _ => true
  | _ => false

def Ev.isDeleteNotif : Ev → Bool
  | .callDeleteNotification _ => true
  | _ => false

/-- Does some exists-check happen before the first delete call in the trace?
(What the delete-algorithm claim requires of every external delete.) -/
def startsWithExists : List Ev → Bool
  | .callTopicExists _ :: _ => true
  | .callSubExists _ :: _ => true
  | _ => false

/-- The finalizer-ordering claim on a trace: every external create happens
only after the finalizer-add mutation. -/
def finalizerFirst (tr : List Ev) : Bool :=
  (tr.takeWhile (fun e => !(e == Ev.evAddFinalizer))).all (fun e => !(Ev.isExternalCreate e))

namespace Gcs

/-- Modelled from the spec (§4.2): the controller's opaque finalizer marker
(`controllerAgentName` is defined outside `src/`); its exact value is
irrelevant, only its identity. -/
def controllerAgentName : String := "cloud-run-events-gcs-controller"

/-- Constant `finalizerName = controllerAgentName` (gcs.go). -/
def finalizerName : String := controllerAgentName

/-- Spec of a GCS source record (`v1alpha1.GCS`): the fields the reconciler
reads. -/
structure GCSSpec where
  bucket : String
  googleCloudProject : String
  eventTypes : List String
  objectNamePref : String
  customAttributes : List (String × String)
deriving DecidableEq, Repr

/-- Status of a GCS source record: cached external identifiers, resolved sink
URI and conditions. -/
structure GCSStatus where
  topic : String
  notificationID : String
  sinkURI : String
  conds : Conditions
deriving DecidableEq, Repr

/-- A GCS source record.  `finalizers` and `deletionTimestamp` are the
relevant parts of its ObjectMeta. -/
structure GCS where
  namespaceStr : String
  nameStr : String
  finalizers : List String
  deletionTimestamp : Option Nat
  spec : GCSSpec
  status : GCSStatus
deriving DecidableEq, Repr

/-- The child PullSubscription record as seen by the GCS reconciler: only its
readiness is consulted. -/
structure PullSub where
  ready : Bool
deriving DecidableEq, Repr

/-- Oracle for every external system the GCS reconciler talks to during one
pass: each field is the answer that call would return. -/
structure GCSEnv where
  sinkURI : Except String String
  uuid : String
  newPubSubClient : Except PErr Unit
  topicExists : String → Except PErr Bool
  createTopic : String → Except PErr Unit
  deleteTopicRes : String → Except PErr Unit
  getPullSub : Except KErr PullSub
  createPullSub : Except KErr PullSub
  newStorageClient : Except PErr Unit
  notifications : Except PErr (List String)
  addNotifRes : Except PErr String
  deleteNotifRes : String → Except PErr Unit

/-- Condition types initialized by `csr.Status.InitializeConditions()`
(modelled from the spec §4.1: the GCS kind's dependent conditions). -/
def gcsCondTypes : List String := ["PubSubTopicReady", "PubSubSourceReady", "GCSReady"]

def markPubSubTopicReady (csr : GCS) : GCS :=
  { csr with status := { csr.status with conds := setCond csr.status.conds "PubSubTopicReady" ⟨.condTrue, ""⟩ } }

def markPubSubTopicNotReady (csr : GCS) (reason : String) : GCS :=
  { csr with status := { csr.status with conds := setCond csr.status.conds "PubSubTopicReady" ⟨.condFalse, reason⟩ } }

def markPubSubSourceReady (csr : GCS) : GCS :=
  { csr with status := { csr.status with conds := setCond csr.status.conds "PubSubSourceReady" ⟨.condTrue, ""⟩ } }

def markPubSubSourceNotReady (csr : GCS) (reason : String) : GCS :=
  { csr with status := { csr.status with conds := setCond csr.status.conds "PubSubSourceReady" ⟨.condFalse, reason⟩ } }

def markGCSReady (csr : GCS) : GCS :=
  { csr with status := { csr.status with conds := setCond csr.status.conds "GCSReady" ⟨.condTrue, ""⟩ } }

def markGCSNotReady (csr : GCS) (reason : String) : GCS :=
  { csr with status := { csr.status with conds := setCond csr.status.conds "GCSReady" ⟨.condFalse, reason⟩ } }

/-- Function `addFinalizer` (gcs.go:360-364). -/
def addFinalizer (csr : GCS) : GCS :=
  { csr with finalizers := insertFinalizer finalizerName csr.finalizers }

/-- Function `removeFinalizer` (gcs.go:366-370). -/
def removeFinalizer (csr : GCS) : GCS :=
  { csr with finalizers := eraseFinalizer finalizerName csr.finalizers }

/-- Function `deleteTopic` (gcs.go:303-327): empty topic is a no-op; otherwise the
topic is deleted directly and a grpc NotFound error is treated as success. -/
def deleteTopic (env : GCSEnv) (_project topic : String) : Except PErr Unit × List Ev :=
  if topic = "" then (.ok (), [])
  else
    match env.newPubSubClient with
    | .error e => (.error e, [])
    | .ok _ =>
      match env.deleteTopicRes topic with
      | .ok _ => (.ok (), [.callDeleteTopic topic])
      | .error (.grpcStatus c m) =>
        if c = notFoundCode then (.ok (), [.callDeleteTopic topic])
        else (.error (.grpcStatus c m), [.callDeleteTopic topic])
      | .error (.pother m) => (.error (.pother m), [.callDeleteTopic topic])

/-- Function `deleteNotification` (gcs.go:332-358): empty NotificationID is a no-op;
otherwise the notification is deleted directly and a grpc NotFound error is
treated as success. -/
def deleteNotification (env : GCSEnv) (gcs : GCS) : Except PErr Unit × List Ev :=
  if gcs.status.notificationID = "" then (.ok (), [])
  else
    match env.newStorageClient with
    | .error e => (.error e, [])
    | .ok _ =>
      match env.deleteNotifRes gcs.status.notificationID with
      | .ok _ => (.ok (), [.callDeleteNotification gcs.status.notificationID])
      | .error (.grpcStatus c m) =>
        if c = notFoundCode then (.ok (), [.callDeleteNotification gcs.status.notificationID])
        else (.error (.grpcStatus c m), [.callDeleteNotification gcs.status.notificationID])
      | .error (.pother m) => (.error (.pother m), [.callDeleteNotification gcs.status.notificationID])

/-- Function `reconcileTopic` (gcs.go:270-301): generate and store a `gcs-<uuid>` name
when status has none, then get-or-create the topic. -/
def reconcileTopic (env : GCSEnv) (csr : GCS) : Except PErr Unit × GCS × List Ev :=
  let csr1 := if csr.status.topic = "" then
    { csr with status := { csr.status with topic := "gcs-" ++ env.uuid } } else csr
  match env.newPubSubClient with
  | .error e => (.error e, csr1, [])
  | .ok _ =>
    match env.topicExists csr1.status.topic with
    | .error e => (.error e, csr1, [.callTopicExists csr1.status.topic])
    | .ok true => (.ok (), csr1, [.callTopicExists csr1.status.topic])
    | .ok false =>
      match env.createTopic csr1.status.topic with
      | .error e => (.error e, csr1, [.callTopicExists csr1.status.topic, .callCreateTopic csr1.status.topic])
      | .ok _ => (.ok (), csr1, [.callTopicExists csr1.status.topic, .callCreateTopic csr1.status.topic])

/-- Function `reconcilePubSub` (gcs.go:204-218): get the child PullSubscription,
creating it when absent. -/
def reconcilePubSub (env : GCSEnv) : Except KErr PullSub × List Ev :=
  match env.getPullSub with
  | .ok ps => (.ok ps, [.callGetPullSubscription])
  | .error .notFound =>
    match env.createPullSub with
    | .ok ps => (.ok ps, [.callGetPullSubscription, .callCreatePullSubscription])
    | .error e => (.error e, [.callGetPullSubscription, .callCreatePullSubscription])
  | .error (.kother m) => (.error (.kother m), [.callGetPullSubscription])

/-- Function `reconcileNotification` (gcs.go:220-268): reuse the notification whose id
is cached in status when it still exists; otherwise create one whose custom
attributes are a fresh copy of the spec's with `ce-type` overwritten to
`google.gcs`. -/
def reconcileNotification (env : GCSEnv) (gcs : GCS) : Except PErr String × List Ev :=
  match env.newStorageClient with
  | .error e => (.error e, [])
  | .ok _ =>
    match env.notifications with
    | .error e => (.error e, [.callListNotifications])
    | .ok ids =>
      if gcs.status.notificationID ≠ "" ∧ gcs.status.notificationID ∈ ids then
        (.ok gcs.status.notificationID, [.callListNotifications])
      else
        let customAttributes := mapSet gcs.spec.customAttributes "ce-type" "google.gcs"
        match env.addNotifRes with
        | .error e => (.error e, [.callListNotifications, .callAddNotification gcs.status.topic customAttributes])
        | .ok nid => (.ok nid, [.callListNotifications, .callAddNotification gcs.status.topic customAttributes])

/-- The deletion branch of `reconcileGCSSource` (gcs.go:139-153): delete the
notification, delete the topic, clear the topic from status and remove the
finalizer. -/
def gcsDeletionPass (env : GCSEnv) (csr : GCS) : Except RErr Unit × GCS × List Ev :=
  match deleteNotification env csr with
  | (.error e, ntr) => (.error (.provider e), csr, ntr)
  | (.ok _, ntr) =>
    match deleteTopic env csr.spec.googleCloudProject csr.status.topic with
    | (.error e, ttr) => (.error (.provider e), csr, ntr ++ ttr)
    | (.ok _, ttr) =>
      let csr1 := { csr with status := { csr.status with topic := "" } }
      let csr2 := removeFinalizer csr1
      (.ok (), csr2, ntr ++ ttr ++ [.evRemoveFinalizer])

/-- The non-deleting branch of `reconcileGCSSource` (gcs.go:155-201):
initialize conditions, reconcile the topic, mark it ready, add the finalizer,
store the sink URI, reconcile the child PullSubscription and the
notification, marking a False condition and returning the error on each
failure. -/
def gcsCreationPass (env : GCSEnv) (csr0 : GCS) (uri : String) : Except RErr Unit × GCS × List Ev :=
  let csr1 := { csr0 with status := { csr0.status with conds := initConds csr0.status.conds gcsCondTypes } }
  match reconcileTopic env csr1 with
  | (.error e, csr2, ttr) =>
    (.error (.provider e), markPubSubTopicNotReady csr2 ("Failed to create GCP PubSub Topic: " ++ e.msg), ttr)
  | (.ok _, csr2, ttr) =>
    let csr3 := markPubSubTopicReady csr2
    let csr4 := addFinalizer csr3
    let csr5 := { csr4 with status := { csr4.status with sinkURI := uri } }
    match reconcilePubSub env with
    | (.error e, ptr) =>
      (.error (.k8s e), markPubSubSourceNotReady csr5 ("Failed to create GCP PubSub Source: " ++ e.msg),
        ttr ++ Ev.evAddFinalizer :: ptr)
    | (.ok ps, ptr) =>
      let csr6 := if ps.ready then markPubSubSourceReady csr5
        else markPubSubSourceNotReady csr5 "underlying GCP PubSub Source is not ready"
      match reconcileNotification env csr6 with
      | (.error e, ntr) =>
        (.error (.provider e), markGCSNotReady csr6 ("Failed to create GCS notification: " ++ e.msg),
          ttr ++ Ev.evAddFinalizer :: (ptr ++ ntr))
      | (.ok nid, ntr) =>
        let csr7 := markGCSReady csr6
        let csr8 := { csr7 with status := { csr7.status with notificationID := nid } }
        (.ok (), csr8, ttr ++ Ev.evAddFinalizer :: (ptr ++ ntr))

/-- Function `reconcileGCSSource` (gcs.go:121-202): resolve the sink first; a failed
resolution on a non-deleting pass returns the error (status untouched — the
MarkNoSink call is commented out in the source); on a deleting pass the
resolution result is ignored. -/
def reconcileGCSSource (env : GCSEnv) (csr0 : GCS) : Except RErr Unit × GCS × List Ev :=
  let r : Except RErr Unit × GCS × List Ev :=
    match env.sinkURI, csr0.deletionTimestamp with
    | .error e, none => (.error (.sinkErr e), csr0, ([] : List Ev))
    | .error _, some _ => gcsDeletionPass env csr0
    | .ok _, some _ => gcsDeletionPass env csr0
    | .ok uri, none => gcsCreationPass env csr0 uri
  (r.1, r.2.1, Ev.callGetSinkURI :: r.2.2)

/-- The k8s persistence oracle used by the top-level `Reconcile`: the fresh
lister read inside `updateStatus` and the result of the `UpdateStatus` API
call. -/
structure GcsUEnv where
  freshGet : Except KErr GCS
  updateStatusRes : Except KErr Unit

/-- Function `updateStatus` (gcs.go:372-398): re-read the record, skip the write when
status is deeply equal, otherwise write a copy of the fresh record carrying
only the new status.  The second component lists the records actually
persisted. -/
def updateStatus (uenv : GcsUEnv) (desired : GCS) : Except KErr GCS × List GCS :=
  match uenv.freshGet with
  | .error e => (.error e, [])
  | .ok source =>
    if source.status = desired.status then (.ok source, [])
    else
      let existing := { source with status := desired.status }
      match uenv.updateStatusRes with
      | .error e => (.error e, [])
      | .ok _ => (.ok existing, [existing])

/-- Function `Reconcile` (gcs.go:84-119): a NotFound lookup is success; otherwise
reconcile a deep copy and call `updateStatus` only when status or ObjectMeta
(finalizers) changed. -/
def Reconcile (lookup : Except KErr GCS) (env : GCSEnv) (uenv : GcsUEnv) :
    Option RErr × List Ev × List GCS :=
  match lookup with
  | .error .notFound => (none, [], [])
  | .error (.kother m) => (some (.k8s (.kother m)), [], [])
  | .ok original =>
    match reconcileGCSSource env original with
    | (rres, csr, tr) =>
      if original.status = csr.status ∧ original.finalizers = csr.finalizers then
        (exceptErr rres, tr, [])
      else
        match updateStatus uenv csr with
        | (.error e, ws) => (some (.k8s e), tr, ws)
        | (.ok _, ws) => (exceptErr rres, tr, ws)

end Gcs

namespace PubSubSrc

/-- Modelled from the spec (§4.2): the controller's opaque finalizer marker
(`controllerAgentName` is defined outside `src/`). -/
def controllerAgentName : String := "cloud-run-events-pubsub-source-controller"

/-- Constant `finalizerName = controllerAgentName` (part_000). -/
def finalizerName : String := controllerAgentName

/-- Spec of a PubSubSource record: the fields the reconciler reads.
`hasTransformer` models whether `Spec.Transformer` is non-nil. -/
structure PSSpec where
  project : String
  topic : String
  hasTransformer : Bool
deriving DecidableEq, Repr

/-- Status of a PubSubSource record. -/
structure PSStatus where
  projectID : String
  sinkURI : String
  conds : Conditions
  observedGeneration : Int
deriving DecidableEq, Repr

/-- A PubSubSource record. -/
structure PubSubSource where
  namespaceStr : String
  nameStr : String
  finalizers : List String
  deletionTimestamp : Option Nat
  generation : Int
  spec : PSSpec
  status : PSStatus
deriving DecidableEq, Repr

/-- Oracle for the external systems the PubSubSource reconciler talks to
during one pass. -/
structure PSEnv where
  metadataProjectID : Except String String
  sinkURI : Except String String
  transformerURI : Except String String
  newClient : Except PErr Unit
  subExists : String → Except PErr Bool
  createSub : String → Except PErr Unit
  deleteSub : String → Except PErr Unit
  getRA : Except KErr Unit
  createRA : Except KErr Unit

/-- Condition types initialized by `source.Status.InitializeConditions()`
(modelled from the spec §4.1: the PubSubSource kind's dependent
conditions). -/
def psCondTypes : List String := ["SinkProvided", "Subscribed", "Deployed"]

/-- Modelled from the spec (§4.1): `MarkSink` records the resolved URI and
sets the sink condition True. -/
def markSink (s : PubSubSource) (uri : String) : PubSubSource :=
  { s with status :=
    { s.status with
      sinkURI := uri
      conds := setCond s.status.conds "SinkProvided" ⟨.condTrue, ""⟩ } }

/-- Modelled from the spec (§4.1): `MarkNoSink(reason, "")` sets the sink
condition False with the given reason. -/
def markNoSink (s : PubSubSource) (reason : String) : PubSubSource :=
  { s with status := { s.status with conds := setCond s.status.conds "SinkProvided" ⟨.condFalse, reason⟩ } }

def markSubscribed (s : PubSubSource) : PubSubSource :=
  { s with status := { s.status with conds := setCond s.status.conds "Subscribed" ⟨.condTrue, ""⟩ } }

def markDeployed (s : PubSubSource) : PubSubSource :=
  { s with status := { s.status with conds := setCond s.status.conds "Deployed" ⟨.condTrue, ""⟩ } }

/-- Function `addFinalizer` (part_000:315-319). -/
def addFinalizer (s : PubSubSource) : PubSubSource :=
  { s with finalizers := insertFinalizer finalizerName s.finalizers }

/-- Function `removeFinalizer` (part_000:321-325). -/
def removeFinalizer (s : PubSubSource) : PubSubSource :=
  { s with finalizers := eraseFinalizer finalizerName s.finalizers }

/-- Modelled from the spec (§4.3): `resources.GenerateSubName` is outside
`src/`; a deterministic subscription name derived from the record. -/
def generateSubName (src : PubSubSource) : String :=
  "cre-pull-" ++ src.namespaceStr ++ "-" ++ src.nameStr

/-- Function `resolveProjectID` (part_000:219-238): prefer the spec's project, then
the metadata server, else fail with a validation error.  Returns the record
with `status.projectID` set on success. -/
def resolveProjectID (env : PSEnv) (src : PubSubSource) : Except RErr PubSubSource :=
  if src.spec.project ≠ "" then
    .ok { src with status := { src.status with projectID := src.spec.project } }
  else
    match env.metadataProjectID with
    | .ok pid => .ok { src with status := { src.status with projectID := pid } }
    | .error _ => .error (.validation "project is required but not set")

/-- Function `createSubscription` (part_000:372-399): validate project and topic,
then get-or-create the subscription named `generateSubName src`. -/
def createSubscription (env : PSEnv) (src : PubSubSource) : Except RErr String × List Ev :=
  if src.status.projectID = "" then (.error (.validation "project is required but not set"), [])
  else if src.spec.topic = "" then (.error (.validation "topic is required but not set"), [])
  else
    match env.newClient with
    | .error e => (.error (.provider e), [])
    | .ok _ =>
      let sname := generateSubName src
      match env.subExists sname with
      | .error e => (.error (.provider e), [.callSubExists sname])
      | .ok true => (.ok sname, [.callSubExists sname])
      | .ok false =>
        match env.createSub sname with
        | .error e => (.error (.provider e), [.callSubExists sname, .callCreateSub sname])
        | .ok _ => (.ok sname, [.callSubExists sname, .callCreateSub sname])

/-- Function `deleteSubscription` (part_000:401-418): validate the project, check
existence first, and return `sub.Delete`'s error unchanged (NotFound from
the delete itself is NOT treated as success here). -/
def deleteSubscription (env : PSEnv) (src : PubSubSource) : Except RErr Unit × List Ev :=
  if src.status.projectID = "" then (.error (.validation "project is required but not set"), [])
  else
    match env.newClient with
    | .error e => (.error (.provider e), [])
    | .ok _ =>
      let sname := generateSubName src
      match env.subExists sname with
      | .error e => (.error (.provider e), [.callSubExists sname])
      | .ok false => (.ok (), [.callSubExists sname])
      | .ok true =>
        match env.deleteSub sname with
        | .error e => (.error (.provider e), [.callSubExists sname, .callDeleteSub sname])
        | .ok _ => (.ok (), [.callSubExists sname, .callDeleteSub sname])

/-- Function `createReceiveAdapter`/`getReceiveAdapter` (part_000:327-370): reuse the
owned Deployment when one exists, create it when the lookup is NotFound. -/
def createReceiveAdapter (env : PSEnv) : Except KErr Unit × List Ev :=
  match env.getRA with
  | .ok _ => (.ok (), [.callGetRA])
  | .error .notFound =>
    match env.createRA with
    | .ok _ => (.ok (), [.callGetRA, .callCreateRA])
    | .error e => (.error e, [.callGetRA, .callCreateRA])
  | .error (.kother m) => (.error (.kother m), [.callGetRA])

/-- Steps of `reconcile` (part_000:188-216) after the sink is resolved:
create the subscription, add the finalizer, mark Subscribed, create the
receive adapter, mark Deployed and record the observed generation. -/
def psAfterSink (env : PSEnv) (src : PubSubSource) : Except RErr Unit × PubSubSource × List Ev :=
  match createSubscription env src with
  | (.error e, str) => (.error e, src, str)
  | (.ok _subId, str) =>
    let src1 := addFinalizer src
    let src2 := markSubscribed src1
    match createReceiveAdapter env with
    | (.error e, ratr) => (.error (.k8s e), src2, str ++ Ev.evAddFinalizer :: ratr)
    | (.ok _, ratr) =>
      let src3 := markDeployed src2
      let src4 := { src3 with status := { src3.status with observedGeneration := src3.generation } }
      (.ok (), src4, str ++ Ev.evAddFinalizer :: ratr)

/-- Function `reconcile` (part_000:140-217): initialize conditions, resolve the
project, run deletion cleanup when the deletion timestamp is set, otherwise
resolve the sink (marking NoSink/NotFound on failure), resolve the optional
transformer, and run the post-sink steps. -/
def reconcile (env : PSEnv) (src0 : PubSubSource) : Except RErr Unit × PubSubSource × List Ev :=
  let src1 := { src0 with status := { src0.status with conds := initConds src0.status.conds psCondTypes } }
  match resolveProjectID env src1 with
  | .error e => (.error e, src1, [])
  | .ok src2 =>
    match src2.deletionTimestamp with
    | some _ =>
      match deleteSubscription env src2 with
      | (.error e, dtr) => (.error e, src2, dtr)
      | (.ok _, dtr) => (.ok (), removeFinalizer src2, dtr ++ [.evRemoveFinalizer])
    | none =>
      match env.sinkURI with
      | .error e => (.error (.sinkErr e), markNoSink src2 "NotFound", [])
      | .ok uri =>
        let src3 := markSink src2 uri
        if src3.spec.hasTransformer then
          match env.transformerURI with
          | .error e => (.error (.sinkErr e), markNoSink src3 "NotFound", [])
          | .ok _ => psAfterSink env (markSink src3 uri)
        else psAfterSink env src3

/-- The k8s persistence oracle for the top-level `Reconcile`: the fresh
lister read used by `updateFinalizers`/`updateStatus`, the `Patch` result
and the `UpdateStatus` result. -/
structure PSUEnv where
  freshGet : Except KErr PubSubSource
  patchRes : Except KErr Unit
  statusUpdateRes : Except KErr Unit

/-- A write persisted through the k8s API by the top-level `Reconcile`. -/
inductive PSWrite
  | wFinalizers (fins : List String)
  | wStatus (st : PSStatus)
deriving DecidableEq, Repr

/-- A persistence step the top-level `Reconcile` decided to invoke. -/
inductive PSStep
  | stepFinalizers
  | stepStatus
deriving DecidableEq, Repr

/-- Function `updateFinalizers` (part_000:267-313): re-read the record; when the
presence of this controller's finalizer already agrees, do nothing; else
patch the fresh record's finalizer list with the marker added or removed. -/
def updateFinalizers (uenv : PSUEnv) (desired : PubSubSource) :
    Except KErr Unit × Bool × List PSWrite :=
  match uenv.freshGet with
  | .error e => (.error e, false, [])
  | .ok existing =>
    if desired.finalizers.contains finalizerName then
      if existing.finalizers.contains finalizerName then (.ok (), false, [])
      else
        let fins := existing.finalizers ++ [finalizerName]
        match uenv.patchRes with
        | .error e => (.error e, true, [])
        | .ok _ => (.ok (), true, [.wFinalizers fins])
    else
      if !(existing.finalizers.contains finalizerName) then (.ok (), false, [])
      else
        let fins := eraseFinalizer finalizerName existing.finalizers
        match uenv.patchRes with
        | .error e => (.error e, true, [])
        | .ok _ => (.ok (), true, [.wFinalizers fins])

/-- Function `updateStatus` (part_000:240-265): re-read the record, skip the write
when status is deeply equal, otherwise persist the new status. -/
def updateStatus (uenv : PSUEnv) (desired : PubSubSource) :
    Except KErr Unit × List PSWrite :=
  match uenv.freshGet with
  | .error e => (.error e, [])
  | .ok source =>
    if source.status = desired.status then (.ok (), [])
    else
      match uenv.statusUpdateRes with
      | .error e => (.error e, [])
      | .ok _ => (.ok (), [.wStatus desired.status])

/-- The status half of `Reconcile` (part_000:119-137): skipped when status
is unchanged from the original; an update failure is returned instead of
the reconcile error. -/
def psStatusStep (original source : PubSubSource) (rErr : Option RErr)
    (tr : List Ev) (uenv : PSUEnv) (steps : List PSStep) (ws : List PSWrite) :
    Option RErr × List Ev × List PSStep × List PSWrite :=
  if original.status = source.status then (rErr, tr, steps, ws)
  else
    match updateStatus uenv source with
    | (.error ue, ws2) => (some (.k8s ue), tr, steps ++ [.stepStatus], ws ++ ws2)
    | (.ok _, ws2) => (rErr, tr, steps ++ [.stepStatus], ws ++ ws2)

/-- Function `Reconcile` (part_000:80-138): a NotFound lookup is success; otherwise
reconcile a deep copy, then run the finalizer persistence step exactly when
the clone's finalizers differ from the original, and the status persistence
step exactly when the clone's status differs. -/
def Reconcile (lookup : Except KErr PubSubSource) (env : PSEnv) (uenv : PSUEnv) :
    Option RErr × List Ev × List PSStep × List PSWrite :=
  match lookup with
  | .error .notFound => (none, [], [], [])
  | .error (.kother m) => (some (.k8s (.kother m)), [], [], [])
  | .ok original =>
    match reconcile env original with
    | (rres, source, tr) =>
      if original.finalizers = source.finalizers then
        psStatusStep original source (exceptErr rres) tr uenv [] []
      else
        match updateFinalizers uenv source with
        | (.error fe, _, ws) => (some (.k8s fe), tr, [.stepFinalizers], ws)
        | (.ok _, _, ws) => psStatusStep original source (exceptErr rres) tr uenv [.stepFinalizers] ws

end PubSubSrc

/-! Further event classifiers and claim predicates. -/

def Ev.isTopicEv : Ev → Bool
  | .callTopicExists _ => true
  | .callCreateTopic _ => true
  | _ => false

def Ev.isPullSubEv : Ev → Bool
  | .callGetPullSubscription => true
  | .callCreatePullSubscription => true
  | _ => false

def Ev.isNotifEv : Ev → Bool
  | .callListNotifications => true
  | .callAddNotification _ _ => true
  | _ => false

def Ev.isSubEv : Ev → Bool
  | .callSubExists _ => true
  | .callCreateSub _ => true
  | _ => false

def Ev.isRAEv : Ev → Bool
  | .callGetRA => true
  | .callCreateRA => true
  | _ => false

def Ev.isCreatePS : Ev → Bool
  | .callCreatePullSubscription => true
  | _ => false

def Ev.isAddNotif : Ev → Bool
  | .callAddNotification _ _ => true
  | _ => false

def Ev.isCreateRA : Ev → Bool
  | .callCreateRA => true
  | _ => false

/-- Is this event something other than the finalizer-add mutation? -/
def notAddFin (e : Ev) : Bool := !(e == Ev.evAddFinalizer)

/-- GCS amended ordering, before the finalizer-add: no PullSubscription or
notification create. -/
def gcsPreOk (e : Ev) : Bool := !(Ev.isCreatePS e) && !(Ev.isAddNotif e)

/-- GCS amended ordering, after the finalizer-add: no topic create. -/
def gcsPostOk (e : Ev) : Bool := !(Ev.isCreateTopic e)

/-- PubSubSource amended ordering, before the finalizer-add: no receive
adapter create. -/
def psPreOk (e : Ev) : Bool := !(Ev.isCreateRA e)

/-- PubSubSource amended ordering, after the finalizer-add: no subscription
create. -/
def psPostOk (e : Ev) : Bool := !(Ev.isCreateSub e)

/-- Is this reconcile error a permanent/logic (validation) error? -/
def RErr.isPermanent : RErr → Bool
  | .validation _ => true
  | _ => false

/-- The delete-algorithm claim, applied to `Gcs.deleteTopic` at one input:
with an identifier recorded, `exists` must be called before any delete. -/
def claimExistsFirstTopic (env : Gcs.GCSEnv) (project topic : String) : Prop :=
  topic ≠ "" → startsWithExists (Gcs.deleteTopic env project topic).2 = true

/-- The error-reporting claim, applied to the PubSubSource `reconcile` at one
input: a permanent/logic error from an external create/delete step must be
accompanied by a False condition in the resulting status. -/
def claimFalseCondOnPermanent (env : PubSubSrc.PSEnv) (src : PubSubSrc.PubSubSource) : Prop :=
  (match (PubSubSrc.reconcile env src).1 with
   | .error e => e.isPermanent
   | .ok _ => false) = true →
  hasFalseCond ((PubSubSrc.reconcile env src).2.1.status.conds) = true

/-! Concrete sample records and environments, used by counterexamples and
witnesses. -/

/-- A sample GCS spec. -/
def specA : Gcs.GCSSpec :=
  { bucket := "b"
    googleCloudProject := "p"
    eventTypes := []
    objectNamePref := ""
    customAttributes := [("k", "v")] }

/-- A fresh (empty) GCS status. -/
def statusEmpty : Gcs.GCSStatus :=
  { topic := "", notificationID := "", sinkURI := "", conds := [] }

/-- A freshly created GCS record: no finalizers, not deleting, empty
status. -/
def csrA : Gcs.GCS :=
  { namespaceStr := "ns", nameStr := "n", finalizers := [], deletionTimestamp := none
    spec := specA, status := statusEmpty }

/-- Happy-path environment for the GCS reconciler: sink resolves, topic does
not exist yet and is created, the child PullSubscription is created ready,
no notification exists and one is created. -/
def envA : Gcs.GCSEnv :=
  { sinkURI := .ok "http://sink"
    uuid := "u1"
    newPubSubClient := .ok ()
    topicExists := fun _ => .ok false
    createTopic := fun _ => .ok ()
    deleteTopicRes := fun _ => .ok ()
    getPullSub := .error .notFound
    createPullSub := .ok { ready := true }
    newStorageClient := .ok ()
    notifications := .ok []
    addNotifRes := .ok "n1"
    deleteNotifRes := fun _ => .ok () }

/-- Environment whose sink resolution fails. -/
def envNoSink : Gcs.GCSEnv :=
  { envA with sinkURI := .error "sink not found" }

/-- A GCS record marked for deletion, carrying the controller's finalizer,
with notification id 42 and topic t recorded in status. -/
def csrDelB : Gcs.GCS :=
  { namespaceStr := "ns", nameStr := "n", finalizers := [Gcs.finalizerName]
    deletionTimestamp := some 0, spec := specA
    status := { topic := "t", notificationID := "42", sinkURI := "", conds := [] } }

/-- Environment for scenario B: deleting the notification answers grpc
NotFound, deleting the topic succeeds. -/
def envDelB : Gcs.GCSEnv :=
  { envA with deleteNotifRes := fun _ => .error (.grpcStatus notFoundCode "notification not found") }

/-- A GCS record marked for deletion whose status records nothing, so the
deletion pass changes only the finalizer list. -/
def csrDelFin : Gcs.GCS :=
  { namespaceStr := "ns", nameStr := "n", finalizers := [Gcs.finalizerName]
    deletionTimestamp := some 0, spec := specA, status := statusEmpty }

/-- Persistence oracle whose fresh read returns `csrDelFin` itself. -/
def uenvDelFin : Gcs.GcsUEnv :=
  { freshGet := .ok csrDelFin, updateStatusRes := .ok () }

/-- Environments used by the delete-algorithm theorems. -/
def envDelOk : Gcs.GCSEnv := envA

def envDelNF : Gcs.GCSEnv :=
  { envA with
    deleteTopicRes := fun _ => .error (.grpcStatus notFoundCode "topic gone")
    deleteNotifRes := fun _ => .error (.grpcStatus notFoundCode "notification gone") }

def envDelOther : Gcs.GCSEnv :=
  { envA with deleteTopicRes := fun _ => .error (.pother "quota") }

/-- A sample PubSubSource spec with project and topic set. -/
def psSpecA : PubSubSrc.PSSpec :=
  { project := "p", topic := "t", hasTransformer := false }

/-- A fresh PubSubSource record. -/
def srcA : PubSubSrc.PubSubSource :=
  { namespaceStr := "ns", nameStr := "n", finalizers := [], deletionTimestamp := none
    generation := 1
    spec := psSpecA
    status := { projectID := "", sinkURI := "", conds := [], observedGeneration := 0 } }

/-- A PubSubSource record whose spec lacks the required topic. -/
def srcNoTopic : PubSubSrc.PubSubSource :=
  { srcA with spec := { psSpecA with topic := "" } }

/-- A PubSubSource record with an empty resolved project id (and spec
project unset) used to exercise `deleteSubscription`'s validation error. -/
def srcNoProject : PubSubSrc.PubSubSource :=
  { srcA with spec := { psSpecA with project := "" } }

/-- A PubSubSource record whose non-finalizer state is already converged, so
a reconcile pass changes only the finalizer list. -/
def srcConverged : PubSubSrc.PubSubSource :=
  { namespaceStr := "ns", nameStr := "n", finalizers := [], deletionTimestamp := none
    generation := 1
    spec := psSpecA
    status :=
      { projectID := "p", sinkURI := "u"
        conds := [("SinkProvided", ⟨.condTrue, ""⟩), ("Subscribed", ⟨.condTrue, ""⟩),
                  ("Deployed", ⟨.condTrue, ""⟩)]
        observedGeneration := 1 } }

/-- Happy-path environment for the PubSubSource reconciler. -/
def penvA : PubSubSrc.PSEnv :=
  { metadataProjectID := .ok "p"
    sinkURI := .ok "u"
    transformerURI := .ok "tu"
    newClient := .ok ()
    subExists := fun _ => .ok true
    createSub := fun _ => .ok ()
    deleteSub := fun _ => .ok ()
    getRA := .ok ()
    createRA := .ok () }

/-- Environment where the subscription does not exist yet. -/
def penvNoSub : PubSubSrc.PSEnv :=
  { penvA with subExists := fun _ => .ok false }

/-- Environment where deleting the existing subscription answers grpc
NotFound. -/
def penvDelNF : PubSubSrc.PSEnv :=
  { penvA with deleteSub := fun _ => .error (.grpcStatus notFoundCode "subscription gone") }

/-- Fresh-read persistence oracle for `srcConverged`. -/
def puenvConverged : PubSubSrc.PSUEnv :=
  { freshGet := .ok srcConverged, patchRes := .ok (), statusUpdateRes := .ok () }

/-- Sample: `srcA` with a resolved project id in status. -/
def srcWithProject : PubSubSrc.PubSubSource :=
  { srcA with status := { srcA.status with projectID := "p" } }

/-- Environment whose topic-existence check answers true. -/
def envExists : Gcs.GCSEnv :=
  { envA with topicExists := fun _ => .ok true }

/-- Sample: `csrA` with a topic name already cached in status. -/
def csrWithTopic : Gcs.GCS :=
  { csrA with status := { statusEmpty with topic := "t0" } }

/-- Persistence oracle whose fresh read returns `csrDelB`. -/
def uenvDelB : Gcs.GcsUEnv :=
  { freshGet := .ok csrDelB, updateStatusRes := .ok () }

/-- Environment whose pubsub client cannot be created. -/
def envTopicFail : Gcs.GCSEnv :=
  { envA with newPubSubClient := .error (.pother "pubsub down") }

/-- Environment where the child PullSubscription lookup fails hard. -/
def envPSFail : Gcs.GCSEnv :=
  { envExists with getPullSub := .error (.kother "api down") }

/-- Environment where the storage client cannot be created. -/
def envNotifFail : Gcs.GCSEnv :=
  { envExists with
    getPullSub := .ok { ready := true }
    newStorageClient := .error (.pother "storage down") }

/-! Helper lemmas: attribute maps, the string-set operations, conditions. -/

theorem lookupAttr_mapSet_self (m : List (String × String)) (k v : String) :
    lookupAttr (mapSet m k v) k = some v := by
  induction m with
  | nil => simp [mapSet, lookupAttr]
  | cons p t ih =>
    by_cases h : p.1 = k
    · simp [mapSet, h, lookupAttr]
    · simpa [mapSet, h, lookupAttr] using ih

theorem lookupAttr_mapSet_other (m : List (String × String)) (k v q : String)
    (h : q ≠ k) : lookupAttr (mapSet m k v) q = lookupAttr m q := by
  have hk : k ≠ q := Ne.symm h
  induction m with
  | nil => simp [mapSet, lookupAttr, hk]
  | cons p t ih =>
    by_cases hp : p.1 = k
    · simp [mapSet, hp, lookupAttr, hk]
    · by_cases hq : p.1 = q
      · simp [mapSet, hp, lookupAttr, hq, h]
      · simp [mapSet, hp, lookupAttr, hq]
        exact ih

theorem strLe_refl (a : String) : strLe a a = true := by simp [strLe]

theorem strLe_trans {a b c : String} (h1 : strLe a b = true) (h2 : strLe b c = true) :
    strLe a c = true := by
  simp [strLe] at h1 h2 ⊢
  exact le_trans h1 h2

theorem strLe_antisymm {a b : String} (h1 : strLe a b = true) (h2 : strLe b a = true) :
    a = b := by
  simp [strLe] at h1 h2
  exact String.ext (le_antisymm h1 h2)

theorem strLe_total (a b : String) : strLe a b = true ∨ strLe b a = true := by
  simp [strLe]
  exact le_total _ _

theorem mem_setInsert (a x : String) (l : List String) :
    a ∈ setInsert x l ↔ a = x ∨ a ∈ l := by
  induction l with
  | nil => simp [setInsert]
  | cons y t ih =>
    by_cases hxy : x = y
    · subst hxy
      simp only [setInsert, if_pos rfl, ite_true, List.mem_cons]
      tauto
    · by_cases hle : strLe x y
      · simp [setInsert, hxy, hle]
      · simp only [setInsert, if_neg hxy, hle, ite_false, Bool.false_eq_true, List.mem_cons, ih]
        tauto

theorem mem_setOfList (a : String) (l : List String) :
    a ∈ setOfList l ↔ a ∈ l := by
  induction l with
  | nil => simp [setOfList]
  | cons x t ih => simp [setOfList, mem_setInsert, ih]

theorem sset_setInsert (x : String) (l : List String) (h : SortedStrSet l) :
    SortedStrSet (setInsert x l) := by
  induction l with
  | nil => simp [setInsert]
  | cons y t ih =>
    obtain ⟨hy, ht⟩ := List.pairwise_cons.mp h
    by_cases hxy : x = y
    · subst hxy
      simp only [setInsert, if_pos rfl, ite_true]
      exact List.pairwise_cons.mpr ⟨hy, ht⟩
    · by_cases hle : strLe x y
      · simp only [setInsert, if_neg hxy, hle, ite_true]
        refine List.pairwise_cons.mpr ⟨?_, List.pairwise_cons.mpr ⟨hy, ht⟩⟩
        intro z hz
        rcases List.mem_cons.mp hz with hz | hz
        · subst hz
          exact ⟨hle, hxy⟩
        · obtain ⟨hyz, hyne⟩ := hy z hz
          refine ⟨strLe_trans hle hyz, ?_⟩
          intro hxz
          subst hxz
          exact hxy (strLe_antisymm hle hyz)
      · simp only [setInsert, if_neg hxy, hle, ite_false, Bool.false_eq_true]
        refine List.pairwise_cons.mpr ⟨?_, ih ht⟩
        intro z hz
        rcases (mem_setInsert z x t).mp hz with hz | hz
        · rw [hz]
          rcases strLe_total x y with h1 | h1
          · exact absurd h1 (by simpa using hle)
          · exact ⟨h1, fun hyx => hxy hyx.symm⟩
        · exact hy z hz

theorem sset_setOfList (l : List String) : SortedStrSet (setOfList l) := by
  induction l with
  | nil => simp [setOfList]
  | cons x t ih => exact sset_setInsert x (setOfList t) ih

theorem setInsert_of_mem (x : String) (l : List String) (h : SortedStrSet l) (hx : x ∈ l) :
    setInsert x l = l := by
  induction l with
  | nil => cases hx
  | cons y t ih =>
    obtain ⟨hy, ht⟩ := List.pairwise_cons.mp h
    by_cases hxy : x = y
    · simp [setInsert, hxy]
    · have hxt : x ∈ t := by
        rcases List.mem_cons.mp hx with h1 | h1
        · exact absurd h1 hxy
        · exact h1
      obtain ⟨hyx, hyne⟩ := hy x hxt
      have hle : strLe x y = false := by
        by_contra hc
        have : strLe x y = true := by simpa using hc
        exact hyne (strLe_antisymm hyx this)
      simp [setInsert, hxy, hle, ih ht hxt]

theorem setOfList_of_sset (l : List String) (h : SortedStrSet l) : setOfList l = l := by
  induction l with
  | nil => rfl
  | cons x t ih =>
    obtain ⟨hx, ht⟩ := List.pairwise_cons.mp h
    rw [setOfList, ih ht]
    cases t with
    | nil => rfl
    | cons y t2 =>
      obtain ⟨hxy, hne⟩ := hx y (List.mem_cons_self y t2)
      simp [setInsert, hne, hxy]

theorem setInsert_idem (x : String) (l : List String) (h : SortedStrSet l) :
    setInsert x (setInsert x l) = setInsert x l :=
  setInsert_of_mem x (setInsert x l) (sset_setInsert x l h)
    ((mem_setInsert x x l).mpr (Or.inl rfl))

theorem sset_filter (l : List String) (p : String → Bool) (h : SortedStrSet l) :
    SortedStrSet (l.filter p) :=
  h.sublist (List.filter_sublist l)

theorem insertFinalizer_idem (name : String) (l : List String) :
    insertFinalizer name (insertFinalizer name l) = insertFinalizer name l := by
  unfold insertFinalizer
  rw [setOfList_of_sset _ (sset_setInsert name (setOfList l) (sset_setOfList l))]
  exact setInsert_idem name (setOfList l) (sset_setOfList l)

theorem eraseFinalizer_idem (name : String) (l : List String) :
    eraseFinalizer name (eraseFinalizer name l) = eraseFinalizer name l := by
  unfold eraseFinalizer
  rw [setOfList_of_sset _ (sset_filter _ _ (sset_setOfList l))]
  rw [List.filter_filter]
  simp

theorem insertFinalizer_nodup (name : String) (l : List String) :
    (insertFinalizer name l).Nodup := by
  have h := sset_setInsert name (setOfList l) (sset_setOfList l)
  exact h.imp (fun hab => hab.2)

theorem eraseFinalizer_nodup (name : String) (l : List String) :
    (eraseFinalizer name l).Nodup := by
  have h := sset_filter (setOfList l) (fun x => !(x == name)) (sset_setOfList l)
  exact h.imp (fun hab => hab.2)

theorem mem_insertFinalizer_self (name : String) (l : List String) :
    name ∈ insertFinalizer name l :=
  (mem_setInsert name name (setOfList l)).mpr (Or.inl rfl)

theorem not_mem_eraseFinalizer_self (name : String) (l : List String) :
    name ∉ eraseFinalizer name l := by
  intro h
  rw [eraseFinalizer, List.mem_filter] at h
  simp at h

theorem mem_insertFinalizer_other (name x : String) (l : List String) (h : x ≠ name) :
    x ∈ insertFinalizer name l ↔ x ∈ l := by
  rw [insertFinalizer, mem_setInsert, mem_setOfList]
  simp [h]

theorem mem_eraseFinalizer_other (name x : String) (l : List String) (h : x ≠ name) :
    x ∈ eraseFinalizer name l ↔ x ∈ l := by
  rw [eraseFinalizer, List.mem_filter, mem_setOfList]
  simp [h]




theorem lookupCond_setCond_self (cs : Conditions) (ty : String) (c : Cond) :
    lookupCond (setCond cs ty c) ty = some c := by
  induction cs with
  | nil => simp [setCond, lookupCond]
  | cons p t ih =>
    by_cases h : p.1 = ty
    · simp [setCond, h, lookupCond]
    · simpa [setCond, h, lookupCond] using ih

theorem lookupCond_setCond_other (cs : Conditions) (ty ty2 : String) (c : Cond)
    (h : ty2 ≠ ty) : lookupCond (setCond cs ty c) ty2 = lookupCond cs ty2 := by
  have hk : ty ≠ ty2 := Ne.symm h
  induction cs with
  | nil => simp [setCond, lookupCond, hk]
  | cons p t ih =>
    by_cases hp : p.1 = ty
    · simp [setCond, hp, lookupCond, hk]
    · by_cases hq : p.1 = ty2
      · simp [setCond, hp, lookupCond, hq, h]
      · simp [setCond, hp, lookupCond, hq]
        exact ih

/-- C10: `addFinalizer` and `removeFinalizer` are idempotent set operations
on the record's finalizer list: applying either twice equals applying it
once, the result has no duplicates, the operations toggle exactly the
controller's own marker and preserve membership of every other finalizer —
in both the GCS and the PubSubSource reconciler. -/
theorem c10_finalizer_set_ops (csr : Gcs.GCS) (s : PubSubSrc.PubSubSource) (x y : String)
    (hx : x ≠ Gcs.finalizerName) (hy : y ≠ PubSubSrc.finalizerName) :
    (Gcs.addFinalizer (Gcs.addFinalizer csr) = Gcs.addFinalizer csr) ∧
    (Gcs.removeFinalizer (Gcs.removeFinalizer csr) = Gcs.removeFinalizer csr) ∧
    (Gcs.addFinalizer csr).finalizers.Nodup ∧
    (Gcs.removeFinalizer csr).finalizers.Nodup ∧
    Gcs.finalizerName ∈ (Gcs.addFinalizer csr).finalizers ∧
    Gcs.finalizerName ∉ (Gcs.removeFinalizer csr).finalizers ∧
    (x ∈ (Gcs.addFinalizer csr).finalizers ↔ x ∈ csr.finalizers) ∧
    (x ∈ (Gcs.removeFinalizer csr).finalizers ↔ x ∈ csr.finalizers) ∧
    (PubSubSrc.addFinalizer (PubSubSrc.addFinalizer s) = PubSubSrc.addFinalizer s) ∧
    (PubSubSrc.removeFinalizer (PubSubSrc.removeFinalizer s) = PubSubSrc.removeFinalizer s) ∧
    PubSubSrc.finalizerName ∈ (PubSubSrc.addFinalizer s).finalizers ∧
    PubSubSrc.finalizerName ∉ (PubSubSrc.removeFinalizer s).finalizers ∧
    (y ∈ (PubSubSrc.addFinalizer s).finalizers ↔ y ∈ s.finalizers) ∧
    (y ∈ (PubSubSrc.removeFinalizer s).finalizers ↔ y ∈ s.finalizers) := by
  refine ⟨?_, ?_, insertFinalizer_nodup _ _, eraseFinalizer_nodup _ _,
    mem_insertFinalizer_self _ _, not_mem_eraseFinalizer_self _ _,
    mem_insertFinalizer_other _ _ _ hx, mem_eraseFinalizer_other _ _ _ hx,
    ?_, ?_,
    mem_insertFinalizer_self _ _, not_mem_eraseFinalizer_self _ _,
    mem_insertFinalizer_other _ _ _ hy, mem_eraseFinalizer_other _ _ _ hy⟩
  · simp [Gcs.addFinalizer, insertFinalizer_idem]
  · simp [Gcs.removeFinalizer, eraseFinalizer_idem]
  · simp [PubSubSrc.addFinalizer, insertFinalizer_idem]
  · simp [PubSubSrc.removeFinalizer, eraseFinalizer_idem]

/-- Witness for C10 at concrete inputs. -/
theorem c10_finalizer_set_ops_witness :
    ("other" ≠ Gcs.finalizerName) ∧ ("other" ≠ PubSubSrc.finalizerName) ∧
    (Gcs.addFinalizer (Gcs.addFinalizer csrA) = Gcs.addFinalizer csrA) ∧
    ("other" ∈ (Gcs.addFinalizer csrA).finalizers ↔ "other" ∈ csrA.finalizers) ∧
    PubSubSrc.finalizerName ∉ (PubSubSrc.removeFinalizer srcA).finalizers := by
  have h := c10_finalizer_set_ops csrA srcA "other" "other" (by decide) (by decide)
  obtain ⟨a1, a2, a3, a4, a5, a6, a7, a8, b1, b2, b3, b4, b5, b6⟩ := h
  exact ⟨by decide, by decide, a1, a7, b4⟩

/-- C7: when the lookup by key answers NotFound, both reconcilers return
success (nil) without performing any external call or persisting anything. -/
theorem c7_notfound_is_noop_success (env : Gcs.GCSEnv) (uenv : Gcs.GcsUEnv)
    (penv : PubSubSrc.PSEnv) (puenv : PubSubSrc.PSUEnv) :
    Gcs.Reconcile (.error .notFound) env uenv = (none, [], []) ∧
    PubSubSrc.Reconcile (.error .notFound) penv puenv = (none, [], [], []) :=
  ⟨rfl, rfl⟩

/-- C6: on a non-deleting pass of the GCS reconciler whose sink cannot be
resolved, the reconcile returns the error and adds no finalizer, but — the
`MarkNoSink` call being commented out in gcs.go — the record is returned
entirely untouched: no sink condition is set at all, contrary to the claim. -/
theorem c6_sink_unresolved_gcs_no_condition :
    Gcs.reconcileGCSSource envNoSink csrA
      = (.error (.sinkErr "sink not found"), csrA, [Ev.callGetSinkURI]) ∧
    hasFalseCond csrA.status.conds = false ∧
    lookupCond csrA.status.conds "SinkProvided" = none ∧
    Gcs.finalizerName ∉ csrA.finalizers := by
  exact ⟨rfl, rfl, rfl, by decide⟩

/-- C2 counterexample: `deleteTopic` with a recorded identifier calls delete
directly — no existence check precedes the delete call, refuting the claimed
delete algorithm at this input. -/
theorem c2_counterexample_no_exists_check : ¬ claimExistsFirstTopic envA "p" "t" := by
  unfold claimExistsFirstTopic
  decide

/-- C2 (amended): the actual delete behaviour.  `deleteTopic` and
`deleteNotification`: an empty identifier is a no-op success with no
provider call; otherwise delete is called directly with no prior existence
check, a grpc NotFound error from the delete itself is success, and any
other error is returned.  `deleteSubscription`: an empty resolved project is
a validation error (not a no-op); otherwise `exists` is called first, a
false answer is a no-op success, and only if true is delete called — whose
error, NotFound included, is returned unchanged. -/
theorem c2_amended_delete_behaviour
    (env env2 env3 : Gcs.GCSEnv) (penv penv2 : PubSubSrc.PSEnv)
    (p t m2 m3 m4 m5 : String) (csr csr0 : Gcs.GCS) (src src2 : PubSubSrc.PubSubSource)
    (ht : t ≠ "")
    (hc : env.newPubSubClient = .ok ()) (hd : env.deleteTopicRes t = .ok ())
    (hc2 : env2.newPubSubClient = .ok ())
    (hd2 : env2.deleteTopicRes t = .error (.grpcStatus notFoundCode m2))
    (hc3 : env3.newPubSubClient = .ok ()) (hd3 : env3.deleteTopicRes t = .error (.pother m3))
    (hn : env.newStorageClient = .ok ())
    (hid : csr.status.notificationID ≠ "")
    (hnd : env.deleteNotifRes csr.status.notificationID = .error (.grpcStatus notFoundCode m4))
    (hid0 : csr0.status.notificationID = "")
    (hps : src.status.projectID = "")
    (hq : src2.status.projectID ≠ "") (hqc : penv.newClient = .ok ())
    (hqe : penv.subExists (PubSubSrc.generateSubName src2) = .ok false)
    (hrc : penv2.newClient = .ok ())
    (hre : penv2.subExists (PubSubSrc.generateSubName src2) = .ok true)
    (hrd : penv2.deleteSub (PubSubSrc.generateSubName src2) = .error (.grpcStatus notFoundCode m5)) :
    (Gcs.deleteTopic env p "" = (.ok (), [])) ∧
    (Gcs.deleteTopic env p t = (.ok (), [Ev.callDeleteTopic t])) ∧
    (Gcs.deleteTopic env2 p t = (.ok (), [Ev.callDeleteTopic t])) ∧
    (Gcs.deleteTopic env3 p t = (.error (.pother m3), [Ev.callDeleteTopic t])) ∧
    (Gcs.deleteNotification env csr0 = (.ok (), [])) ∧
    (Gcs.deleteNotification env csr = (.ok (), [Ev.callDeleteNotification csr.status.notificationID])) ∧
    (PubSubSrc.deleteSubscription penv src = (.error (.validation "project is required but not set"), [])) ∧
    (PubSubSrc.deleteSubscription penv src2 = (.ok (), [Ev.callSubExists (PubSubSrc.generateSubName src2)])) ∧
    (PubSubSrc.deleteSubscription penv2 src2 =
      (.error (.provider (.grpcStatus notFoundCode m5)),
       [Ev.callSubExists (PubSubSrc.generateSubName src2), Ev.callDeleteSub (PubSubSrc.generateSubName src2)])) := by
  refine ⟨?_, ?_, ?_, ?_, ?_, ?_, ?_, ?_, ?_⟩
  · simp [Gcs.deleteTopic]
  · simp [Gcs.deleteTopic, ht, hc, hd]
  · simp [Gcs.deleteTopic, ht, hc2, hd2]
  · simp [Gcs.deleteTopic, ht, hc3, hd3]
  · simp [Gcs.deleteNotification, hid0]
  · simp [Gcs.deleteNotification, hid, hn, hnd]
  · simp [PubSubSrc.deleteSubscription, hps]
  · simp [PubSubSrc.deleteSubscription, hq, hqc, hqe]
  · simp [PubSubSrc.deleteSubscription, hq, hrc, hre, hrd]

/-- Witness for the amended C2 at concrete inputs. -/
theorem c2_amended_delete_behaviour_witness :
    ("t" ≠ "") ∧
    (Gcs.deleteTopic envDelB "p" "" = (.ok (), [])) ∧
    (Gcs.deleteTopic envDelB "p" "t" = (.ok (), [Ev.callDeleteTopic "t"])) ∧
    (Gcs.deleteTopic envDelNF "p" "t" = (.ok (), [Ev.callDeleteTopic "t"])) ∧
    (Gcs.deleteTopic envDelOther "p" "t" = (.error (.pother "quota"), [Ev.callDeleteTopic "t"])) ∧
    (Gcs.deleteNotification envDelB csrA = (.ok (), [])) ∧
    (Gcs.deleteNotification envDelB csrDelB = (.ok (), [Ev.callDeleteNotification csrDelB.status.notificationID])) ∧
    (PubSubSrc.deleteSubscription penvNoSub srcA = (.error (.validation "project is required but not set"), [])) ∧
    (PubSubSrc.deleteSubscription penvNoSub srcWithProject
      = (.ok (), [Ev.callSubExists (PubSubSrc.generateSubName srcWithProject)])) ∧
    (PubSubSrc.deleteSubscription penvDelNF srcWithProject =
      (.error (.provider (.grpcStatus notFoundCode "subscription gone")),
       [Ev.callSubExists (PubSubSrc.generateSubName srcWithProject),
        Ev.callDeleteSub (PubSubSrc.generateSubName srcWithProject)])) := by
  have h := c2_amended_delete_behaviour envDelB envDelNF envDelOther penvNoSub penvDelNF
    "p" "t" "topic gone" "quota" "notification not found" "subscription gone"
    csrDelB csrA srcA srcWithProject
    (by decide) rfl rfl rfl rfl rfl rfl rfl (by decide) rfl rfl
    (by decide) (by decide) rfl rfl rfl rfl rfl
  exact ⟨by decide, h.1, h.2.1, h.2.2.1, h.2.2.2.1, h.2.2.2.2.1, h.2.2.2.2.2.1,
    h.2.2.2.2.2.2.1, h.2.2.2.2.2.2.2.1, h.2.2.2.2.2.2.2.2⟩

/-- C3: get-or-create of the topic is idempotent.  With an empty stored
topic name, `reconcileTopic` generates `gcs-<uuid>` and stores it in status
in every branch — in particular before (and regardless of) any create
attempt, and any create call it makes targets exactly that stored name.
With a cached name that still exists, it performs the existence check only —
zero create calls — and returns the record unchanged.  Likewise
`createSubscription` reuses an existing subscription with zero create
calls. -/
theorem c3_get_or_create_idempotent (env env2 : Gcs.GCSEnv) (penv : PubSubSrc.PSEnv)
    (csr csr2 : Gcs.GCS) (src : PubSubSrc.PubSubSource) (t : String)
    (h1 : csr.status.topic = "")
    (h2 : csr2.status.topic = t) (h3 : t ≠ "")
    (h4 : env2.newPubSubClient = .ok ()) (h5 : env2.topicExists t = .ok true)
    (h6 : src.status.projectID ≠ "") (h7 : src.spec.topic ≠ "")
    (h8 : penv.newClient = .ok ())
    (h9 : penv.subExists (PubSubSrc.generateSubName src) = .ok true) :
    ((Gcs.reconcileTopic env csr).2.1.status.topic = "gcs-" ++ env.uuid) ∧
    ((Gcs.reconcileTopic env csr).2.2.all
      (fun e => !(Ev.isCreateTopic e) || (e == Ev.callCreateTopic ("gcs-" ++ env.uuid))) = true) ∧
    (Gcs.reconcileTopic env2 csr2 = (.ok (), csr2, [Ev.callTopicExists t])) ∧
    (PubSubSrc.createSubscription penv src
      = (.ok (PubSubSrc.generateSubName src), [Ev.callSubExists (PubSubSrc.generateSubName src)])) := by
  refine ⟨?_, ?_, ?_, ?_⟩
  · simp only [Gcs.reconcileTopic, h1, if_true]
    cases hc : env.newPubSubClient <;>
      simp <;>
      cases he : env.topicExists ("gcs-" ++ env.uuid) <;> simp_all <;>
      cases he2 : ‹Bool› <;> simp_all <;>
      cases hcr : env.createTopic ("gcs-" ++ env.uuid) <;> simp_all
  · simp only [Gcs.reconcileTopic, h1, if_true]
    cases hc : env.newPubSubClient <;>
      simp [Ev.isCreateTopic] <;>
      cases he : env.topicExists ("gcs-" ++ env.uuid) <;> simp_all [Ev.isCreateTopic] <;>
      cases he2 : ‹Bool› <;> simp_all [Ev.isCreateTopic] <;>
      cases hcr : env.createTopic ("gcs-" ++ env.uuid) <;> simp_all [Ev.isCreateTopic]
  · have hne : csr2.status.topic ≠ "" := by rw [h2]; exact h3
    simp [Gcs.reconcileTopic, hne, h2, h3, h4, h5]
  · simp [PubSubSrc.createSubscription, h6, h7, h8, h9]

/-- Witness for C3 at concrete inputs. -/
theorem c3_get_or_create_idempotent_witness :
    (csrA.status.topic = "") ∧ ("t0" ≠ "") ∧
    ((Gcs.reconcileTopic envA csrA).2.1.status.topic = "gcs-" ++ envA.uuid) ∧
    ((Gcs.reconcileTopic envA csrA).2.2.all
      (fun e => !(Ev.isCreateTopic e) || (e == Ev.callCreateTopic ("gcs-" ++ envA.uuid))) = true) ∧
    (Gcs.reconcileTopic envExists csrWithTopic = (.ok (), csrWithTopic, [Ev.callTopicExists "t0"])) ∧
    (PubSubSrc.createSubscription penvA srcWithProject
      = (.ok (PubSubSrc.generateSubName srcWithProject),
         [Ev.callSubExists (PubSubSrc.generateSubName srcWithProject)])) := by
  have h := c3_get_or_create_idempotent envA envExists penvA csrA csrWithTopic srcWithProject "t0"
    rfl rfl (by decide) rfl rfl (by decide) (by decide) rfl rfl
  exact ⟨rfl, by decide, h.1, h.2.1, h.2.2.1, h.2.2.2⟩

/-! Spec preservation: no part of the GCS reconcile pass ever modifies the
record's spec (in particular the user's custom-attribute map is read, copied
and never written back). -/

theorem reconcileTopic_spec (env : Gcs.GCSEnv) (csr : Gcs.GCS) :
    (Gcs.reconcileTopic env csr).2.1.spec = csr.spec := by
  simp only [Gcs.reconcileTopic]
  repeat' split
  all_goals rfl

theorem gcsDeletionPass_spec (env : Gcs.GCSEnv) (csr : Gcs.GCS) :
    (Gcs.gcsDeletionPass env csr).2.1.spec = csr.spec := by
  simp only [Gcs.gcsDeletionPass]
  repeat' split
  all_goals simp [Gcs.removeFinalizer]

theorem gcsCreationPass_spec (env : Gcs.GCSEnv) (csr0 : Gcs.GCS) (uri : String) :
    (Gcs.gcsCreationPass env csr0 uri).2.1.spec = csr0.spec := by
  have hT := reconcileTopic_spec env
    { csr0 with status := { csr0.status with conds := initConds csr0.status.conds Gcs.gcsCondTypes } }
  simp only [Gcs.gcsCreationPass]
  split
  · rename_i heq
    rw [heq] at hT
    simp at hT
    simpa [Gcs.markPubSubTopicNotReady] using hT
  · rename_i heq
    rw [heq] at hT
    simp at hT
    split
    · simpa [Gcs.markPubSubSourceNotReady, Gcs.addFinalizer, Gcs.markPubSubTopicReady] using hT
    · split
      · simpa [Gcs.markGCSNotReady, Gcs.markPubSubSourceReady, Gcs.markPubSubSourceNotReady,
          Gcs.addFinalizer, Gcs.markPubSubTopicReady, apply_ite] using hT
      · simpa [Gcs.markGCSReady, Gcs.markPubSubSourceReady, Gcs.markPubSubSourceNotReady,
          Gcs.addFinalizer, Gcs.markPubSubTopicReady, apply_ite] using hT

theorem reconcileGCSSource_spec (env : Gcs.GCSEnv) (csr0 : Gcs.GCS) :
    (Gcs.reconcileGCSSource env csr0).2.1.spec = csr0.spec := by
  simp only [Gcs.reconcileGCSSource]
  split
  · rfl
  · exact gcsDeletionPass_spec env csr0
  · exact gcsDeletionPass_spec env csr0
  · exact gcsCreationPass_spec env csr0 _

/-- C9: when the GCS reconciler creates a notification, the custom
attributes it sends to the provider are a fresh copy of the user's
`spec.customAttributes` with the `ce-type` key overwritten to `google.gcs`:
the sent map always answers `google.gcs` for `ce-type`, agrees with the
spec's map on every other key, and the reconcile pass leaves the record's
spec (hence the original map) unchanged. -/
theorem c9_ce_type_attribute (env : Gcs.GCSEnv) (csr : Gcs.GCS) (ids : List String) (k : String)
    (h1 : env.newStorageClient = .ok ()) (h2 : env.notifications = .ok ids)
    (h3 : ¬(csr.status.notificationID ≠ "" ∧ csr.status.notificationID ∈ ids))
    (h4 : k ≠ "ce-type") :
    ((Gcs.reconcileNotification env csr).2 =
      [Ev.callListNotifications,
       Ev.callAddNotification csr.status.topic (mapSet csr.spec.customAttributes "ce-type" "google.gcs")]) ∧
    lookupAttr (mapSet csr.spec.customAttributes "ce-type" "google.gcs") "ce-type" = some "google.gcs" ∧
    (lookupAttr (mapSet csr.spec.customAttributes "ce-type" "google.gcs") k
      = lookupAttr csr.spec.customAttributes k) ∧
    (Gcs.reconcileGCSSource env csr).2.1.spec = csr.spec := by
  refine ⟨?_, lookupAttr_mapSet_self _ _ _, lookupAttr_mapSet_other _ _ _ _ h4,
    reconcileGCSSource_spec env csr⟩
  simp only [Gcs.reconcileNotification, h1, h2]
  simp [h3]
  cases env.addNotifRes <;> simp

/-- Witness for C9 at concrete inputs. -/
theorem c9_ce_type_attribute_witness :
    (envA.newStorageClient = .ok ()) ∧ ("k" ≠ "ce-type") ∧
    ((Gcs.reconcileNotification envA csrA).2 =
      [Ev.callListNotifications,
       Ev.callAddNotification csrA.status.topic (mapSet csrA.spec.customAttributes "ce-type" "google.gcs")]) ∧
    lookupAttr (mapSet csrA.spec.customAttributes "ce-type" "google.gcs") "ce-type" = some "google.gcs" ∧
    (lookupAttr (mapSet csrA.spec.customAttributes "ce-type" "google.gcs") "k"
      = lookupAttr csrA.spec.customAttributes "k") ∧
    (Gcs.reconcileGCSSource envA csrA).2.1.spec = csrA.spec := by
  have h := c9_ce_type_attribute envA csrA [] "k" rfl rfl (by decide) (by decide)
  exact ⟨rfl, by decide, h.1, h.2.1, h.2.2.1, h.2.2.2⟩

/-- C5: on a deleting pass with a notification identifier recorded in
status, the reconcile deletes exactly that identifier, treats the
provider's grpc NotFound answer as success, clears the topic from status,
removes the controller's finalizer and returns success. -/
theorem c5_deletion_notfound_success (env : Gcs.GCSEnv) (csr : Gcs.GCS) (ts : Nat) (tpc m : String)
    (h0 : csr.deletionTimestamp = some ts)
    (h2 : csr.status.notificationID ≠ "")
    (h3 : env.newStorageClient = .ok ())
    (h4 : env.deleteNotifRes csr.status.notificationID = .error (.grpcStatus notFoundCode m))
    (h5 : csr.status.topic = tpc) (h6 : tpc ≠ "")
    (h7 : env.newPubSubClient = .ok ()) (h8 : env.deleteTopicRes tpc = .ok ()) :
    (Gcs.reconcileGCSSource env csr).1 = .ok () ∧
    (Gcs.reconcileGCSSource env csr).2.1.status.topic = "" ∧
    Gcs.finalizerName ∉ (Gcs.reconcileGCSSource env csr).2.1.finalizers ∧
    ((Gcs.reconcileGCSSource env csr).2.2.filter Ev.isDeleteNotif)
      = [Ev.callDeleteNotification csr.status.notificationID] := by
  have hdn : Gcs.deleteNotification env csr
      = (.ok (), [Ev.callDeleteNotification csr.status.notificationID]) := by
    simp [Gcs.deleteNotification, h2, h3, h4]
  have hdt : Gcs.deleteTopic env csr.spec.googleCloudProject csr.status.topic
      = (.ok (), [Ev.callDeleteTopic tpc]) := by
    rw [h5]
    simp [Gcs.deleteTopic, h6, h7, h8]
  have hdel : Gcs.gcsDeletionPass env csr
      = (.ok (), Gcs.removeFinalizer { csr with status := { csr.status with topic := "" } },
         [Ev.callDeleteNotification csr.status.notificationID, Ev.callDeleteTopic tpc,
          Ev.evRemoveFinalizer]) := by
    simp [Gcs.gcsDeletionPass, hdn, hdt]
  have hmain : Gcs.reconcileGCSSource env csr
      = (.ok (), Gcs.removeFinalizer { csr with status := { csr.status with topic := "" } },
         Ev.callGetSinkURI :: [Ev.callDeleteNotification csr.status.notificationID,
           Ev.callDeleteTopic tpc, Ev.evRemoveFinalizer]) := by
    simp only [Gcs.reconcileGCSSource, h0]
    cases hs : env.sinkURI <;> simp [hdel, h0]
  refine ⟨by simp [hmain], by simp [hmain, Gcs.removeFinalizer], ?_, ?_⟩
  · simp only [hmain]
    simp [Gcs.removeFinalizer]
    exact not_mem_eraseFinalizer_self _ _
  · simp [hmain, Ev.isDeleteNotif]

/-- Witness for C5 at concrete inputs (scenario B: notification id 42,
provider answers NotFound). -/
theorem c5_deletion_notfound_success_witness :
    (csrDelB.deletionTimestamp = some 0) ∧ (csrDelB.status.notificationID ≠ "") ∧
    (Gcs.reconcileGCSSource envDelB csrDelB).1 = .ok () ∧
    (Gcs.reconcileGCSSource envDelB csrDelB).2.1.status.topic = "" ∧
    Gcs.finalizerName ∉ (Gcs.reconcileGCSSource envDelB csrDelB).2.1.finalizers ∧
    ((Gcs.reconcileGCSSource envDelB csrDelB).2.2.filter Ev.isDeleteNotif)
      = [Ev.callDeleteNotification csrDelB.status.notificationID] := by
  have h := c5_deletion_notfound_success envDelB csrDelB 0 "t" "notification not found"
    rfl (by decide) rfl rfl rfl (by decide) rfl rfl
  exact ⟨rfl, by decide, h.1, h.2.1, h.2.2.1, h.2.2.2⟩

/-- Helper: under a successful fresh read of the original and a successful
update call, the status persistence step is appended exactly when status
changed. -/
theorem psStatusStep_steps (original source : PubSubSrc.PubSubSource) (rErr : Option RErr)
    (tr : List Ev) (uenv : PubSubSrc.PSUEnv) (steps : List PubSubSrc.PSStep)
    (ws : List PubSubSrc.PSWrite)
    (hfresh : uenv.freshGet = .ok original) (hupd : uenv.statusUpdateRes = .ok ()) :
    (PubSubSrc.psStatusStep original source rErr tr uenv steps ws).2.2.1
      = if original.status = source.status then steps
        else steps ++ [PubSubSrc.PSStep.stepFinalizers].tail ++ [PubSubSrc.PSStep.stepStatus] := by
  by_cases hst : original.status = source.status
  · simp [PubSubSrc.psStatusStep, hst]
  · simp [PubSubSrc.psStatusStep, PubSubSrc.updateStatus, hst, hfresh, hupd]

/-- Helper: under a successful fresh read and patch, `updateFinalizers`
never fails. -/
theorem updateFinalizers_ok (uenv : PubSubSrc.PSUEnv) (desired original : PubSubSrc.PubSubSource)
    (hfresh : uenv.freshGet = .ok original) (hpatch : uenv.patchRes = .ok ()) :
    (PubSubSrc.updateFinalizers uenv desired).1 = .ok () := by
  simp only [PubSubSrc.updateFinalizers, hfresh]
  by_cases hd : PubSubSrc.finalizerName ∈ desired.finalizers <;>
    by_cases he : PubSubSrc.finalizerName ∈ original.finalizers <;>
    simp [hd, he, hpatch]

/-- C4 counterexample: in the GCS reconciler a finalizer-only change is NOT
persisted.  On this deleting record the reconcile changes only the finalizer
list, yet the top-level `Reconcile` performs no persisted write at all (its
single `updateStatus` step short-circuits on unchanged status and persists
no finalizers). -/
theorem c4_counterexample_finalizer_change_dropped :
    ((Gcs.reconcileGCSSource envA csrDelFin).2.1.status = csrDelFin.status) ∧
    ((Gcs.reconcileGCSSource envA csrDelFin).2.1.finalizers ≠ csrDelFin.finalizers) ∧
    ((Gcs.Reconcile (.ok csrDelFin) envA uenvDelFin).2.2 = []) ∧
    ((Gcs.Reconcile (.ok csrDelFin) envA uenvDelFin).1 = none) := by
  refine ⟨rfl, by decide, rfl, rfl⟩

/-- C4 (amended): in the PubSubSource reconciler status and finalizer
persistence are independent steps, each invoked exactly when that part of
the reconciled clone differs from the last-observed record (when the
persistence calls succeed), and a finalizer-only change is persisted with
status untouched.  In the GCS reconciler one combined guard feeds a
status-only `updateStatus`: whenever the freshly read status agrees with the
clone nothing is persisted (even if finalizers changed), and any write it
does persist carries the freshly read finalizers unchanged. -/
theorem c4_amended_persistence_steps
    (original : PubSubSrc.PubSubSource) (env : PubSubSrc.PSEnv) (uenv : PubSubSrc.PSUEnv)
    (g gsrc g2 gsrc2 : Gcs.GCS) (genv genv2 : Gcs.GCSEnv) (guenv guenv2 : Gcs.GcsUEnv)
    (hfresh : uenv.freshGet = .ok original) (hpatch : uenv.patchRes = .ok ())
    (hupd : uenv.statusUpdateRes = .ok ())
    (hgfresh : guenv.freshGet = .ok gsrc)
    (hgstat : gsrc.status = (Gcs.reconcileGCSSource genv g).2.1.status)
    (hg2fresh : guenv2.freshGet = .ok gsrc2) :
    ((PubSubSrc.PSStep.stepFinalizers ∈ (PubSubSrc.Reconcile (.ok original) env uenv).2.2.1)
       ↔ original.finalizers ≠ (PubSubSrc.reconcile env original).2.1.finalizers) ∧
    ((PubSubSrc.PSStep.stepStatus ∈ (PubSubSrc.Reconcile (.ok original) env uenv).2.2.1)
       ↔ original.status ≠ (PubSubSrc.reconcile env original).2.1.status) ∧
    (PubSubSrc.Reconcile (.ok srcConverged) penvA puenvConverged
       = (none,
          [Ev.callSubExists (PubSubSrc.generateSubName srcConverged), Ev.evAddFinalizer, Ev.callGetRA],
          [PubSubSrc.PSStep.stepFinalizers], [PubSubSrc.PSWrite.wFinalizers [PubSubSrc.finalizerName]])) ∧
    ((Gcs.Reconcile (.ok g) genv guenv).2.2 = []) ∧
    ((Gcs.Reconcile (.ok g2) genv2 guenv2).2.2.all
      (fun w => w.finalizers == gsrc2.finalizers) = true) := by
  rcases hrec : PubSubSrc.reconcile env original with ⟨rres, source, tr⟩
  have hsteps : (PubSubSrc.Reconcile (.ok original) env uenv).2.2.1
      = (if original.finalizers = source.finalizers then ([] : List PubSubSrc.PSStep)
         else [PubSubSrc.PSStep.stepFinalizers])
        ++ (if original.status = source.status then ([] : List PubSubSrc.PSStep)
            else [PubSubSrc.PSStep.stepStatus]) := by
    by_cases hf : original.finalizers = source.finalizers
    · simp only [PubSubSrc.Reconcile, hrec, hf, if_pos, if_true]
      rw [psStatusStep_steps original source _ tr uenv [] [] hfresh hupd]
      by_cases hst : original.status = source.status <;> simp [hst, hf]
    · rcases huf : PubSubSrc.updateFinalizers uenv source with ⟨ufr, ufb, ufw⟩
      have hok : ufr = .ok () := by
        have h1 := updateFinalizers_ok uenv source original hfresh hpatch
        rw [huf] at h1
        simpa using h1
      subst hok
      simp only [PubSubSrc.Reconcile, hrec, hf, if_neg, if_false, huf]
      rw [psStatusStep_steps original source _ tr uenv [PubSubSrc.PSStep.stepFinalizers] ufw hfresh hupd]
      by_cases hst : original.status = source.status <;> simp [hst, hf]
  refine ⟨?_, ?_, ?_, ?_, ?_⟩
  · rw [hsteps]
    by_cases hf : original.finalizers = source.finalizers <;>
      by_cases hst : original.status = source.status <;> simp [hf, hst]
  · rw [hsteps]
    by_cases hf : original.finalizers = source.finalizers <;>
      by_cases hst : original.status = source.status <;> simp [hf, hst]
  · rfl
  · rcases hg : Gcs.reconcileGCSSource genv g with ⟨grres, gcsr, gtr⟩
    rw [hg] at hgstat
    simp at hgstat
    by_cases hguard : g.status = gcsr.status ∧ g.finalizers = gcsr.finalizers
    · simp [Gcs.Reconcile, hg, hguard]
    · simp only [Gcs.Reconcile, hg, hguard, if_neg, if_false]
      simp [Gcs.updateStatus, hgfresh, hgstat]
  · rcases hg2 : Gcs.reconcileGCSSource genv2 g2 with ⟨grres, gcsr, gtr⟩
    by_cases hguard : g2.status = gcsr.status ∧ g2.finalizers = gcsr.finalizers
    · simp [Gcs.Reconcile, hg2, hguard]
    · simp only [Gcs.Reconcile, hg2, hguard, if_neg, if_false]
      by_cases hse : gsrc2.status = gcsr.status
      · simp [Gcs.updateStatus, hg2fresh, hse]
      · cases hu : guenv2.updateStatusRes <;>
          simp [Gcs.updateStatus, hg2fresh, hse, hu]

/-- Witness for the amended C4 at concrete inputs. -/
theorem c4_amended_persistence_steps_witness :
    ((PubSubSrc.PSStep.stepFinalizers ∈ (PubSubSrc.Reconcile (.ok srcConverged) penvA puenvConverged).2.2.1)
       ↔ srcConverged.finalizers ≠ (PubSubSrc.reconcile penvA srcConverged).2.1.finalizers) ∧
    ((PubSubSrc.PSStep.stepStatus ∈ (PubSubSrc.Reconcile (.ok srcConverged) penvA puenvConverged).2.2.1)
       ↔ srcConverged.status ≠ (PubSubSrc.reconcile penvA srcConverged).2.1.status) ∧
    (PubSubSrc.Reconcile (.ok srcConverged) penvA puenvConverged
       = (none,
          [Ev.callSubExists (PubSubSrc.generateSubName srcConverged), Ev.evAddFinalizer, Ev.callGetRA],
          [PubSubSrc.PSStep.stepFinalizers], [PubSubSrc.PSWrite.wFinalizers [PubSubSrc.finalizerName]])) ∧
    ((Gcs.Reconcile (.ok csrDelFin) envA uenvDelFin).2.2 = []) ∧
    ((Gcs.Reconcile (.ok csrDelB) envA uenvDelB).2.2.all
      (fun w => w.finalizers == csrDelB.finalizers) = true) := by
  have h := c4_amended_persistence_steps srcConverged penvA puenvConverged
    csrDelFin csrDelFin csrDelB csrDelB envA envA uenvDelFin uenvDelB
    rfl rfl rfl rfl rfl rfl
  exact ⟨h.1, h.2.1, h.2.2.1, h.2.2.2.1, h.2.2.2.2⟩

/-- C8 counterexample: the PubSubSource reconciler, failing the subscription
create with the permanent error "topic is required but not set", returns the
error but records NO False condition — refuting the claim at this input. -/
theorem c8_counterexample_no_false_condition : ¬ claimFalseCondOnPermanent penvA srcNoTopic := by
  unfold claimFalseCondOnPermanent
  decide

/-- C8 (amended): in the GCS reconciler every failing external step (topic,
child PullSubscription, notification) both records a False condition with a
reason for that step and returns the error; in the PubSubSource reconciler a
permanent/logic error from the subscription step (a required field missing
from the spec) is returned as an error but records no False condition — the
step's own condition stays Unknown. -/
theorem c8_amended_error_reporting
    (env env2 env3 : Gcs.GCSEnv) (penv : PubSubSrc.PSEnv)
    (csr csr2 csr3 : Gcs.GCS) (src : PubSubSrc.PubSubSource)
    (uri uri2 uri3 t2 t3 m m3 u : String) (e : PErr) (ps : Gcs.PullSub)
    (ha1 : csr.deletionTimestamp = none) (ha2 : env.sinkURI = .ok uri)
    (ha3 : env.newPubSubClient = .error e)
    (hb1 : csr2.deletionTimestamp = none) (hb2 : env2.sinkURI = .ok uri2)
    (hb3 : csr2.status.topic = t2) (hb4 : t2 ≠ "")
    (hb5 : env2.newPubSubClient = .ok ()) (hb6 : env2.topicExists t2 = .ok true)
    (hb7 : env2.getPullSub = .error (.kother m))
    (hc1 : csr3.deletionTimestamp = none) (hc2 : env3.sinkURI = .ok uri3)
    (hc3 : csr3.status.topic = t3) (hc4 : t3 ≠ "")
    (hc5 : env3.newPubSubClient = .ok ()) (hc6 : env3.topicExists t3 = .ok true)
    (hc7 : env3.getPullSub = .ok ps) (hc8 : env3.newStorageClient = .error (.pother m3))
    (hd1 : src.deletionTimestamp = none) (hd2 : src.spec.project ≠ "")
    (hd3 : penv.sinkURI = .ok u) (hd4 : src.spec.hasTransformer = false)
    (hd5 : src.spec.topic = "") (hd6 : src.status.conds = []) :
    ((Gcs.reconcileGCSSource env csr).1 = .error (.provider e)) ∧
    (lookupCond (Gcs.reconcileGCSSource env csr).2.1.status.conds "PubSubTopicReady"
      = some ⟨.condFalse, "Failed to create GCP PubSub Topic: " ++ e.msg⟩) ∧
    ((Gcs.reconcileGCSSource env2 csr2).1 = .error (.k8s (.kother m))) ∧
    (lookupCond (Gcs.reconcileGCSSource env2 csr2).2.1.status.conds "PubSubSourceReady"
      = some ⟨.condFalse, "Failed to create GCP PubSub Source: " ++ m⟩) ∧
    ((Gcs.reconcileGCSSource env3 csr3).1 = .error (.provider (.pother m3))) ∧
    (lookupCond (Gcs.reconcileGCSSource env3 csr3).2.1.status.conds "GCSReady"
      = some ⟨.condFalse, "Failed to create GCS notification: " ++ m3⟩) ∧
    ((PubSubSrc.reconcile penv src).1 = .error (.validation "topic is required but not set")) ∧
    (hasFalseCond (PubSubSrc.reconcile penv src).2.1.status.conds = false) ∧
    (lookupCond (PubSubSrc.reconcile penv src).2.1.status.conds "Subscribed"
      = some ⟨.condUnknown, ""⟩) := by
  have hA : (Gcs.reconcileGCSSource env csr).1 = .error (.provider e) ∧
      lookupCond (Gcs.reconcileGCSSource env csr).2.1.status.conds "PubSubTopicReady"
        = some ⟨.condFalse, "Failed to create GCP PubSub Topic: " ++ e.msg⟩ := by
    simp only [Gcs.reconcileGCSSource, ha1, ha2]
    simp [Gcs.gcsCreationPass, Gcs.reconcileTopic, ha3, Gcs.markPubSubTopicNotReady,
      apply_ite, lookupCond_setCond_self]
  have hB : (Gcs.reconcileGCSSource env2 csr2).1 = .error (.k8s (.kother m)) ∧
      lookupCond (Gcs.reconcileGCSSource env2 csr2).2.1.status.conds "PubSubSourceReady"
        = some ⟨.condFalse, "Failed to create GCP PubSub Source: " ++ m⟩ := by
    simp only [Gcs.reconcileGCSSource, hb1, hb2]
    simp [Gcs.gcsCreationPass, Gcs.reconcileTopic, Gcs.reconcilePubSub, hb3, hb4, hb5, hb6, hb7,
      Gcs.markPubSubTopicReady, Gcs.markPubSubSourceNotReady, Gcs.addFinalizer, KErr.msg,
      lookupCond_setCond_self]
  have hC : (Gcs.reconcileGCSSource env3 csr3).1 = .error (.provider (.pother m3)) ∧
      lookupCond (Gcs.reconcileGCSSource env3 csr3).2.1.status.conds "GCSReady"
        = some ⟨.condFalse, "Failed to create GCS notification: " ++ m3⟩ := by
    simp only [Gcs.reconcileGCSSource, hc1, hc2]
    simp [Gcs.gcsCreationPass, Gcs.reconcileTopic, Gcs.reconcilePubSub, Gcs.reconcileNotification,
      hc3, hc4, hc5, hc6, hc7, hc8,
      Gcs.markPubSubTopicReady, Gcs.markPubSubSourceReady, Gcs.markPubSubSourceNotReady,
      Gcs.markGCSNotReady, Gcs.addFinalizer, PErr.msg, apply_ite, lookupCond_setCond_self]
  have hD : ((PubSubSrc.reconcile penv src).1 = .error (.validation "topic is required but not set")) ∧
      (hasFalseCond (PubSubSrc.reconcile penv src).2.1.status.conds = false) ∧
      (lookupCond (PubSubSrc.reconcile penv src).2.1.status.conds "Subscribed"
        = some ⟨.condUnknown, ""⟩) := by
    simp only [PubSubSrc.reconcile, PubSubSrc.resolveProjectID, hd2, if_pos, ite_true, hd1, hd3]
    simp [PubSubSrc.psAfterSink, PubSubSrc.createSubscription, PubSubSrc.markSink, hd2, hd4, hd5, hd6,
      initConds, initCond, PubSubSrc.psCondTypes, setCond, hasFalseCond, lookupCond]
  exact ⟨hA.1, hA.2, hB.1, hB.2, hC.1, hC.2, hD.1, hD.2.1, hD.2.2⟩

/-- Witness for the amended C8 at concrete inputs. -/
theorem c8_amended_error_reporting_witness :
    ((Gcs.reconcileGCSSource envTopicFail csrA).1 = .error (.provider (.pother "pubsub down"))) ∧
    (lookupCond (Gcs.reconcileGCSSource envTopicFail csrA).2.1.status.conds "PubSubTopicReady"
      = some ⟨.condFalse, "Failed to create GCP PubSub Topic: " ++ (PErr.pother "pubsub down").msg⟩) ∧
    ((Gcs.reconcileGCSSource envPSFail csrWithTopic).1 = .error (.k8s (.kother "api down"))) ∧
    (lookupCond (Gcs.reconcileGCSSource envPSFail csrWithTopic).2.1.status.conds "PubSubSourceReady"
      = some ⟨.condFalse, "Failed to create GCP PubSub Source: " ++ "api down"⟩) ∧
    ((Gcs.reconcileGCSSource envNotifFail csrWithTopic).1 = .error (.provider (.pother "storage down"))) ∧
    (lookupCond (Gcs.reconcileGCSSource envNotifFail csrWithTopic).2.1.status.conds "GCSReady"
      = some ⟨.condFalse, "Failed to create GCS notification: " ++ "storage down"⟩) ∧
    ((PubSubSrc.reconcile penvA srcNoTopic).1 = .error (.validation "topic is required but not set")) ∧
    (hasFalseCond (PubSubSrc.reconcile penvA srcNoTopic).2.1.status.conds = false) ∧
    (lookupCond (PubSubSrc.reconcile penvA srcNoTopic).2.1.status.conds "Subscribed"
      = some ⟨.condUnknown, ""⟩) := by
  exact c8_amended_error_reporting envTopicFail envPSFail envNotifFail penvA
    csrA csrWithTopic csrWithTopic srcNoTopic
    "http://sink" "http://sink" "http://sink" "t0" "t0" "api down" "storage down" "u"
    (.pother "pubsub down") { ready := true }
    rfl rfl rfl rfl rfl rfl (by decide) rfl rfl rfl rfl rfl rfl (by decide) rfl rfl rfl rfl
    (by decide) (by decide) rfl rfl rfl rfl

/-! List helper lemmas for trace-ordering proofs. -/

theorem takeWhile_of_all {α : Type} (p : α → Bool) (l : List α) (h : l.all p = true) :
    l.takeWhile p = l := by
  induction l with
  | nil => rfl
  | cons x t ih =>
    simp only [List.all_cons, Bool.and_eq_true] at h
    simp [List.takeWhile_cons, h.1, ih h.2]

theorem dropWhile_of_all {α : Type} (p : α → Bool) (l : List α) (h : l.all p = true) :
    l.dropWhile p = [] := by
  induction l with
  | nil => rfl
  | cons x t ih =>
    simp only [List.all_cons, Bool.and_eq_true] at h
    simp [List.dropWhile_cons, h.1, ih h.2]

theorem takeWhile_append_of_all {α : Type} (p : α → Bool) (l1 l2 : List α)
    (h : l1.all p = true) : (l1 ++ l2).takeWhile p = l1 ++ l2.takeWhile p := by
  induction l1 with
  | nil => simp
  | cons x t ih =>
    simp only [List.all_cons, Bool.and_eq_true] at h
    simp [List.takeWhile_cons, h.1, ih h.2]

theorem dropWhile_append_of_all {α : Type} (p : α → Bool) (l1 l2 : List α)
    (h : l1.all p = true) : (l1 ++ l2).dropWhile p = l2.dropWhile p := by
  induction l1 with
  | nil => simp
  | cons x t ih =>
    simp only [List.all_cons, Bool.and_eq_true] at h
    simp [List.dropWhile_cons, h.1, ih h.2]

theorem all_imp {α : Type} (p q : α → Bool) (l : List α) (h : l.all p = true)
    (himp : ∀ e, p e = true → q e = true) : l.all q = true := by
  rw [List.all_eq_true] at h ⊢
  exact fun e he => himp e (h e he)

/-! Per-step trace classification. -/

theorem reconcileTopic_events (env : Gcs.GCSEnv) (csr : Gcs.GCS) :
    (Gcs.reconcileTopic env csr).2.2.all Ev.isTopicEv = true := by
  simp only [Gcs.reconcileTopic]
  repeat' split
  all_goals simp [Ev.isTopicEv]

theorem reconcilePubSub_events (env : Gcs.GCSEnv) :
    (Gcs.reconcilePubSub env).2.all Ev.isPullSubEv = true := by
  simp only [Gcs.reconcilePubSub]
  repeat' split
  all_goals simp [Ev.isPullSubEv]

theorem reconcileNotification_events (env : Gcs.GCSEnv) (gcs : Gcs.GCS) :
    (Gcs.reconcileNotification env gcs).2.all Ev.isNotifEv = true := by
  simp only [Gcs.reconcileNotification]
  repeat' split
  all_goals simp [Ev.isNotifEv]

theorem createSubscription_events (env : PubSubSrc.PSEnv) (src : PubSubSrc.PubSubSource) :
    (PubSubSrc.createSubscription env src).2.all Ev.isSubEv = true := by
  simp only [PubSubSrc.createSubscription]
  repeat' split
  all_goals simp [Ev.isSubEv]

theorem createReceiveAdapter_events (env : PubSubSrc.PSEnv) :
    (PubSubSrc.createReceiveAdapter env).2.all Ev.isRAEv = true := by
  simp only [PubSubSrc.createReceiveAdapter]
  repeat' split
  all_goals simp [Ev.isRAEv]

theorem topicEv_facts (e : Ev) (h : Ev.isTopicEv e = true) :
    notAddFin e = true ∧ gcsPreOk e = true := by
  cases e <;> simp_all [Ev.isTopicEv, notAddFin, gcsPreOk, Ev.isCreatePS, Ev.isAddNotif]

theorem pubsubEv_facts (e : Ev) (h : Ev.isPullSubEv e = true) : gcsPostOk e = true := by
  cases e <;> simp_all [Ev.isPullSubEv, gcsPostOk, Ev.isCreateTopic]

theorem notifEv_facts (e : Ev) (h : Ev.isNotifEv e = true) : gcsPostOk e = true := by
  cases e <;> simp_all [Ev.isNotifEv, gcsPostOk, Ev.isCreateTopic]

theorem subEv_facts (e : Ev) (h : Ev.isSubEv e = true) :
    notAddFin e = true ∧ psPreOk e = true := by
  cases e <;> simp_all [Ev.isSubEv, notAddFin, psPreOk, Ev.isCreateRA]

theorem raEv_facts (e : Ev) (h : Ev.isRAEv e = true) : psPostOk e = true := by
  cases e <;> simp_all [Ev.isRAEv, psPostOk, Ev.isCreateSub]

/-! Trace shapes around the finalizer-add event. -/

theorem gcs_order_shape_noadd (ttr : List Ev) (h1 : ttr.all Ev.isTopicEv = true) :
    (ttr.takeWhile notAddFin).all gcsPreOk = true ∧
    (ttr.dropWhile notAddFin).all gcsPostOk = true := by
  have hna : ttr.all notAddFin = true := all_imp _ _ _ h1 (fun e he => (topicEv_facts e he).1)
  rw [takeWhile_of_all _ _ hna, dropWhile_of_all _ _ hna]
  exact ⟨all_imp _ _ _ h1 (fun e he => (topicEv_facts e he).2), by simp⟩

theorem gcs_order_shape (ttr rest : List Ev)
    (h1 : ttr.all Ev.isTopicEv = true)
    (h2 : rest.all (fun e => Ev.isPullSubEv e || Ev.isNotifEv e) = true) :
    ((ttr ++ Ev.evAddFinalizer :: rest).takeWhile notAddFin).all gcsPreOk = true ∧
    ((ttr ++ Ev.evAddFinalizer :: rest).dropWhile notAddFin).all gcsPostOk = true := by
  have hna : ttr.all notAddFin = true := all_imp _ _ _ h1 (fun e he => (topicEv_facts e he).1)
  constructor
  · rw [takeWhile_append_of_all _ _ _ hna]
    have hz : (Ev.evAddFinalizer :: rest).takeWhile notAddFin = [] := by
      simp [List.takeWhile_cons, notAddFin]
    rw [hz, List.append_nil]
    exact all_imp _ _ _ h1 (fun e he => (topicEv_facts e he).2)
  · rw [dropWhile_append_of_all _ _ _ hna]
    have hz : (Ev.evAddFinalizer :: rest).dropWhile notAddFin = Ev.evAddFinalizer :: rest := by
      simp [List.dropWhile_cons, notAddFin]
    rw [hz]
    simp only [List.all_cons, Bool.and_eq_true]
    refine ⟨by simp [gcsPostOk, Ev.isCreateTopic], ?_⟩
    refine all_imp _ _ _ h2 (fun e he => ?_)
    rcases Bool.or_eq_true_iff.mp he with he | he
    · exact pubsubEv_facts e he
    · exact notifEv_facts e he

theorem ps_order_shape_noadd (str : List Ev) (h1 : str.all Ev.isSubEv = true) :
    (str.takeWhile notAddFin).all psPreOk = true ∧
    (str.dropWhile notAddFin).all psPostOk = true := by
  have hna : str.all notAddFin = true := all_imp _ _ _ h1 (fun e he => (subEv_facts e he).1)
  rw [takeWhile_of_all _ _ hna, dropWhile_of_all _ _ hna]
  exact ⟨all_imp _ _ _ h1 (fun e he => (subEv_facts e he).2), by simp⟩

theorem ps_order_shape (str ratr : List Ev)
    (h1 : str.all Ev.isSubEv = true) (h2 : ratr.all Ev.isRAEv = true) :
    ((str ++ Ev.evAddFinalizer :: ratr).takeWhile notAddFin).all psPreOk = true ∧
    ((str ++ Ev.evAddFinalizer :: ratr).dropWhile notAddFin).all psPostOk = true := by
  have hna : str.all notAddFin = true := all_imp _ _ _ h1 (fun e he => (subEv_facts e he).1)
  constructor
  · rw [takeWhile_append_of_all _ _ _ hna]
    have hz : (Ev.evAddFinalizer :: ratr).takeWhile notAddFin = [] := by
      simp [List.takeWhile_cons, notAddFin]
    rw [hz, List.append_nil]
    exact all_imp _ _ _ h1 (fun e he => (subEv_facts e he).2)
  · rw [dropWhile_append_of_all _ _ _ hna]
    have hz : (Ev.evAddFinalizer :: ratr).dropWhile notAddFin = Ev.evAddFinalizer :: ratr := by
      simp [List.dropWhile_cons, notAddFin]
    rw [hz]
    simp only [List.all_cons, Bool.and_eq_true]
    exact ⟨by simp [psPostOk, Ev.isCreateSub], all_imp _ _ _ h2 raEv_facts⟩

/-- Function `resolveProjectID` never touches the deletion timestamp. -/
theorem resolveProjectID_dt (env : PubSubSrc.PSEnv) (src src2 : PubSubSrc.PubSubSource)
    (h : PubSubSrc.resolveProjectID env src = .ok src2) :
    src2.deletionTimestamp = src.deletionTimestamp := by
  simp only [PubSubSrc.resolveProjectID] at h
  split at h
  · simp only [Except.ok.injEq] at h
    rw [← h]
  · split at h
    · simp only [Except.ok.injEq] at h
      rw [← h]
    · cases h

/-- Every non-deleting pass of the GCS creation branch adds the finalizer
only after the topic step and before the PullSubscription/notification
creates. -/
theorem gcsCreationPass_order (env : Gcs.GCSEnv) (csr0 : Gcs.GCS) (uri : String) :
    ((Gcs.gcsCreationPass env csr0 uri).2.2.takeWhile notAddFin).all gcsPreOk = true ∧
    ((Gcs.gcsCreationPass env csr0 uri).2.2.dropWhile notAddFin).all gcsPostOk = true := by
  simp only [Gcs.gcsCreationPass]
  split
  · rename_i e csr2 ttr heq
    have h1 : ttr.all Ev.isTopicEv = true := by
      have h := congrArg (fun r => r.2.2.all Ev.isTopicEv) heq
      simp only at h
      rw [← h]
      exact reconcileTopic_events env _
    simpa using gcs_order_shape_noadd ttr h1
  · rename_i u csr2 ttr heq
    have h1 : ttr.all Ev.isTopicEv = true := by
      have h := congrArg (fun r => r.2.2.all Ev.isTopicEv) heq
      simp only at h
      rw [← h]
      exact reconcileTopic_events env _
    split
    · rename_i e2 ptr heq2
      have h2 : ptr.all Ev.isPullSubEv = true := by
        have h := congrArg (fun r => r.2.all Ev.isPullSubEv) heq2
        simp only at h
        rw [← h]
        exact reconcilePubSub_events env
      have hrest : ptr.all (fun e => Ev.isPullSubEv e || Ev.isNotifEv e) = true :=
        all_imp _ _ _ h2 (fun e he => by simp [he])
      simpa using gcs_order_shape ttr ptr h1 hrest
    · rename_i ps ptr heq2
      have h2 : ptr.all Ev.isPullSubEv = true := by
        have h := congrArg (fun r => r.2.all Ev.isPullSubEv) heq2
        simp only at h
        rw [← h]
        exact reconcilePubSub_events env
      split
      · rename_i e3 ntr heq3
        have h3 : ntr.all Ev.isNotifEv = true := by
          have h := congrArg (fun r => r.2.all Ev.isNotifEv) heq3
          simp only at h
          rw [← h]
          exact reconcileNotification_events env _
        have hrest : (ptr ++ ntr).all (fun e => Ev.isPullSubEv e || Ev.isNotifEv e) = true := by
          rw [List.all_eq_true] at h2 h3 ⊢
          intro e he
          rcases List.mem_append.mp he with he | he
          · simp [h2 e he]
          · simp [h3 e he]
        simpa using gcs_order_shape ttr (ptr ++ ntr) h1 hrest
      · rename_i nid ntr heq3
        have h3 : ntr.all Ev.isNotifEv = true := by
          have h := congrArg (fun r => r.2.all Ev.isNotifEv) heq3
          simp only at h
          rw [← h]
          exact reconcileNotification_events env _
        have hrest : (ptr ++ ntr).all (fun e => Ev.isPullSubEv e || Ev.isNotifEv e) = true := by
          rw [List.all_eq_true] at h2 h3 ⊢
          intro e he
          rcases List.mem_append.mp he with he | he
          · simp [h2 e he]
          · simp [h3 e he]
        simpa using gcs_order_shape ttr (ptr ++ ntr) h1 hrest

/-- Every pass of the PubSubSource post-sink steps adds the finalizer only
after the subscription step and before the receive adapter create. -/
theorem psAfterSink_order (env : PubSubSrc.PSEnv) (src : PubSubSrc.PubSubSource) :
    ((PubSubSrc.psAfterSink env src).2.2.takeWhile notAddFin).all psPreOk = true ∧
    ((PubSubSrc.psAfterSink env src).2.2.dropWhile notAddFin).all psPostOk = true := by
  simp only [PubSubSrc.psAfterSink]
  split
  · rename_i e str heq
    have h1 : str.all Ev.isSubEv = true := by
      have h := congrArg (fun r => r.2.all Ev.isSubEv) heq
      simp only at h
      rw [← h]
      exact createSubscription_events env src
    simpa using ps_order_shape_noadd str h1
  · rename_i sid str heq
    have h1 : str.all Ev.isSubEv = true := by
      have h := congrArg (fun r => r.2.all Ev.isSubEv) heq
      simp only at h
      rw [← h]
      exact createSubscription_events env src
    split
    · rename_i e2 ratr heq2
      have h2 : ratr.all Ev.isRAEv = true := by
        have h := congrArg (fun r => r.2.all Ev.isRAEv) heq2
        simp only at h
        rw [← h]
        exact createReceiveAdapter_events env
      simpa using ps_order_shape str ratr h1 h2
    · rename_i u2 ratr heq2
      have h2 : ratr.all Ev.isRAEv = true := by
        have h := congrArg (fun r => r.2.all Ev.isRAEv) heq2
        simp only at h
        rw [← h]
        exact createReceiveAdapter_events env
      simpa using ps_order_shape str ratr h1 h2

/-- Prepending the sink-resolution call preserves the GCS ordering facts. -/
theorem cons_sink_order (tr : List Ev)
    (h1 : (tr.takeWhile notAddFin).all gcsPreOk = true)
    (h2 : (tr.dropWhile notAddFin).all gcsPostOk = true) :
    ((Ev.callGetSinkURI :: tr).takeWhile notAddFin).all gcsPreOk = true ∧
    ((Ev.callGetSinkURI :: tr).dropWhile notAddFin).all gcsPostOk = true := by
  constructor
  · simpa [List.takeWhile_cons, notAddFin, List.all_cons, gcsPreOk,
      Ev.isCreatePS, Ev.isAddNotif] using h1
  · simpa [List.dropWhile_cons, notAddFin] using h2

/-- C1 counterexample: on a fresh record the GCS reconciler creates the
external topic strictly before adding the finalizer — the claimed
finalizer-before-first-create ordering is false on this non-deleting pass. -/
theorem c1_counterexample_topic_before_finalizer :
    csrA.deletionTimestamp = none ∧
    ((Gcs.reconcileGCSSource envA csrA).2.2.any Ev.isCreateTopic = true) ∧
    (finalizerFirst (Gcs.reconcileGCSSource envA csrA).2.2 = false) := by
  refine ⟨rfl, by decide, by decide⟩

/-- C1 (amended): in every non-deleting reconcile pass the finalizer is
added only after the topic step (GCS) / subscription step (PubSubSource) —
so a created topic or subscription can exist while the finalizer is still
absent — and before the PullSubscription child and notification (GCS) /
receive adapter (PubSubSource) are created: before the finalizer-add event
the trace contains no PullSubscription/notification (resp. receive adapter)
create, and after it no topic (resp. subscription) create. -/
theorem c1_amended_finalizer_after_first_create
    (env : Gcs.GCSEnv) (csr : Gcs.GCS) (penv : PubSubSrc.PSEnv) (src : PubSubSrc.PubSubSource)
    (h : csr.deletionTimestamp = none) (hp : src.deletionTimestamp = none) :
    (((Gcs.reconcileGCSSource env csr).2.2.takeWhile notAddFin).all gcsPreOk = true) ∧
    (((Gcs.reconcileGCSSource env csr).2.2.dropWhile notAddFin).all gcsPostOk = true) ∧
    (((PubSubSrc.reconcile penv src).2.2.takeWhile notAddFin).all psPreOk = true) ∧
    (((PubSubSrc.reconcile penv src).2.2.dropWhile notAddFin).all psPostOk = true) := by
  have hgcs : (((Gcs.reconcileGCSSource env csr).2.2.takeWhile notAddFin).all gcsPreOk = true) ∧
      (((Gcs.reconcileGCSSource env csr).2.2.dropWhile notAddFin).all gcsPostOk = true) := by
    simp only [Gcs.reconcileGCSSource, h]
    cases hs : env.sinkURI
    case error e => exact cons_sink_order [] (by simp) (by simp)
    case ok uri =>
      exact cons_sink_order _ (gcsCreationPass_order env csr uri).1
        (gcsCreationPass_order env csr uri).2
  have hps : (((PubSubSrc.reconcile penv src).2.2.takeWhile notAddFin).all psPreOk = true) ∧
      (((PubSubSrc.reconcile penv src).2.2.dropWhile notAddFin).all psPostOk = true) := by
    simp only [PubSubSrc.reconcile]
    split
    · constructor <;> simp
    · rename_i src2 hres
      have hdt : src2.deletionTimestamp = none := by
        have hd := resolveProjectID_dt penv _ src2 hres
        simpa [hp] using hd
      rw [hdt]
      split
      · rename_i v heq
        exact Option.noConfusion heq
      · split
        · constructor <;> simp
        · rename_i uri hsk
          split
          · split
            · constructor <;> simp
            · exact ⟨(psAfterSink_order penv _).1, (psAfterSink_order penv _).2⟩
          · exact ⟨(psAfterSink_order penv _).1, (psAfterSink_order penv _).2⟩
  exact ⟨hgcs.1, hgcs.2, hps.1, hps.2⟩

/-- Witness for the amended C1 at concrete inputs. -/
theorem c1_amended_finalizer_after_first_create_witness :
    csrA.deletionTimestamp = none ∧ srcWithProject.deletionTimestamp = none ∧
    (((Gcs.reconcileGCSSource envA csrA).2.2.takeWhile notAddFin).all gcsPreOk = true) ∧
    (((Gcs.reconcileGCSSource envA csrA).2.2.dropWhile notAddFin).all gcsPostOk = true) ∧
    (((PubSubSrc.reconcile penvNoSub srcWithProject).2.2.takeWhile notAddFin).all psPreOk = true) ∧
    (((PubSubSrc.reconcile penvNoSub srcWithProject).2.2.dropWhile notAddFin).all psPostOk = true) := by
  have h := c1_amended_finalizer_after_first_create envA csrA penvNoSub srcWithProject rfl rfl
  exact ⟨rfl, rfl, h.1, h.2.1, h.2.2.1, h.2.2.2⟩
